import Mathlib

/-!
# shatfs.c: a 9P file server for the Raspberry Pi Sense Hat

A shallow embedding of `shatfs.c` (v0.7).  Every C function that touches a
device is a Lean function passing the state explicitly: the state holds the
global `cal`, the global `debug`, the open channels and a trace of the calls
made on the register transport.  C `int` values are `Int`, `uchar` values are
`Nat` reduced modulo 256, `/` and `%` on `int` are the truncating
`Int.tdiv` and `Int.tmod`.
-/

namespace ShatFS

/-! ## Data model -/

/-- The C `struct CalTable`: eight `int` fields. -/
structure CalTable where
  h0rh : Int
  h1rh : Int
  h0out : Int
  h1out : Int
  t0degc : Int
  t1degc : Int
  t0out : Int
  t1out : Int
deriving DecidableEq, Repr

/-- The global `CalTable cal;` before `getcal` ran: zero-initialised. -/
def CalTable.zero : CalTable := ⟨0, 0, 0, 0, 0, 0, 0, 0⟩

/-- A value of C type `float`: a finite value (kept as the exact rational it
denotes), an infinity with its sign, or a NaN. -/
inductive FloatVal where
  | fin (q : ℚ)
  | inf (neg : Bool)
  | nan
deriving DecidableEq

/-- One call made by the program on the outside world, in program order. -/
inductive Ev where
  | open (path : String)
  | pwrite (fd : Int) (buf : List Nat) (off : Nat)
  | pread (fd : Int) (n : Nat) (off : Nat)
  | close (fd : Int)
  | sleep (ms : Nat)
  | print (s : String)
deriving DecidableEq, Repr

/-- An open channel of the register transport: its descriptor, the device file
it was opened on and the register address last written to it. -/
structure Chan where
  fd : Int
  path : String
  reg : Nat
deriving DecidableEq, Repr

/-- The outside world of the program, taken as a parameter: the register
transport and the C library are not part of the repository.  `fdOf path` is
what `open(path, ORDWR)` returns (negative when the open fails), `regs path a`
is the content of register `a` of the device behind `path`, and `fmt1f` is the
text `sprint` produces for the verb `%.1f`. -/
structure Sys where
  fdOf : String → Int
  regs : String → Nat → Nat
  fmt1f : FloatVal → String

/-- The part of a 9P request the handlers use: `ifcall.count` and the bytes
found at `ifcall.data[i]`. -/
structure Req where
  count : Nat
  data : Nat → Nat

/-- Program state: the globals `debug` and `cal`, the channels now open, the
trace of calls so far, `ofcall.count` and the string handed to `readstr`. -/
structure St where
  debug : Int
  cal : CalTable
  chans : List Chan
  trace : List Ev
  ofcount : Nat
  resp : Option String

/-- A state at rest: nothing open, nothing traced, `cal` as given. -/
def St.init (debug : Int) (cal : CalTable) : St :=
  ⟨debug, cal, [], [], 0, none⟩

/-! ## The register transport and the library calls -/

/-- Call `open(path, ORDWR)`: a non-negative result is a new open channel. -/
def openDev (sys : Sys) (path : String) (st : St) : Int × St :=
  (sys.fdOf path,
   { st with
     trace := st.trace ++ [Ev.open path]
     chans := if sys.fdOf path < 0 then st.chans
       else ⟨sys.fdOf path, path, 0⟩ :: st.chans })

/-- Record register address `a` on the first channel with descriptor `fd`. -/
def setReg (fd : Int) (a : Nat) : List Chan → List Chan
  | [] => []
  | c :: cs => if c.fd = fd then { c with reg := a } :: cs else c :: setReg fd a cs

/-- Call `pwrite(fd, buf, n, off)` with `n` the length of `buf`: the first byte
addresses a register of the device. -/
def pwrite (fd : Int) (buf : List Nat) (off : Nat) (st : St) : St :=
  { st with
    trace := st.trace ++ [Ev.pwrite fd buf off]
    chans := match buf with
      | a :: _ => setReg fd a st.chans
      | [] => st.chans }

/-- Call `pread(fd, buf, 1, off)` into a `uchar buf[1]`: the byte read is the
content of the register addressed last on that channel (0 stands for the
byte when `fd` is not an open channel, which no caller does). -/
def pread (sys : Sys) (fd : Int) (n off : Nat) (st : St) : Nat × St :=
  (match st.chans.find? (fun c => decide (c.fd = fd)) with
    | some c => sys.regs c.path c.reg % 256
    | none => 0,
   { st with trace := st.trace ++ [Ev.pread fd n off] })

/-- Call `close(fd)`. -/
def close (fd : Int) (st : St) : St :=
  { st with
    trace := st.trace ++ [Ev.close fd]
    chans := st.chans.eraseP (fun c => decide (c.fd = fd)) }

/-- Call `sleep(ms)`. -/
def sleep (ms : Nat) (st : St) : St :=
  { st with trace := st.trace ++ [Ev.sleep ms] }

/-- The guarded diagnostic `if(debug) print(...)`. -/
def dprint (s : String) (st : St) : St :=
  { st with trace := if st.debug ≠ 0 then st.trace ++ [Ev.print s] else st.trace }

/-- The verb `%d` of `sprint` and `print`. -/
def fmtD (n : Int) : String := toString n

/-- Call `readstr(r, out)`: `out` is handed to the 9P library as the content
of the file; the library cuts it to the offset and count of the request. -/
def readstr (_r : Req) (out : String) (st : St) : St :=
  { st with resp := some out }

/-! ## Arithmetic of the C types -/

/-- A C `int` result reduced to 32 bits, signed and wrapping. -/
def wrap32 (x : Int) : Int := (x + 2147483648) % 4294967296 - 2147483648

/-- Round to the nearest integer, ties to the even one. -/
def roundHalfEven (x : ℚ) : Int :=
  let f := ⌊x⌋
  if x - f < 1 / 2 then f
  else if 1 / 2 < x - f then f + 1
  else if f % 2 = 0 then f else f + 1

/-- Round a rational to the nearest `float` (IEEE 754 binary32: 24 significant
bits, least normal exponent -126, round to nearest even, overflow at 2^128).
Every `float` operation below rounds its exact result this way. -/
def roundF32 (q : ℚ) : FloatVal :=
  let e : Int := max (Int.log 2 |q|) (-126) - 23
  let r : ℚ := (roundHalfEven (q / (2 : ℚ) ^ e) : ℚ) * (2 : ℚ) ^ e
  if (2 : ℚ) ^ (128 : Nat) ≤ |r| then FloatVal.inf (decide (q < 0)) else FloatVal.fin r

/-- Conversion of an `int` to `float`. -/
def FloatVal.ofInt (n : Int) : FloatVal := roundF32 (n : ℚ)

/-- The `float` quotient.  A zero divisor in this program is always the
conversion of the `int` 0, that is +0, so the sign of the infinity is the
sign of the dividend. -/
def FloatVal.div : FloatVal → FloatVal → FloatVal
  | .fin a, .fin b =>
    if b = 0 then (if a = 0 then .nan else .inf (decide (a < 0))) else roundF32 (a / b)
  | .fin _, .inf _ => .fin 0
  | .inf s, .fin b => .inf (xor s (decide (b < 0)))
  | .inf _, .inf _ => .nan
  | .nan, _ => .nan
  | _, .nan => .nan

/-- The `float` sum. -/
def FloatVal.add : FloatVal → FloatVal → FloatVal
  | .fin a, .fin b => roundF32 (a + b)
  | .fin _, .inf s => .inf s
  | .inf s, .fin _ => .inf s
  | .inf s, .inf t => if s = t then .inf s else .nan
  | .nan, _ => .nan
  | _, .nan => .nan

/-- Whether a `float` is a finite number. -/
def FloatVal.isFinite : FloatVal → Bool
  | .fin _ => true
  | _ => false

/-! ## Power-up and power-down of the five devices -/

/-- The C function `getcal`. -/
def getcal (sys : Sys) (fd : Int) (st : St) : St :=
  let st := dprint "init caltable..." st
  let st := pwrite fd [0x30] 0 st
  let buf := (pread sys fd 1 0 st).1
  let st := (pread sys fd 1 0 st).2
  let st := { st with cal := { st.cal with h0rh := Int.tdiv (buf : Int) 2 } }
  let st := pwrite fd [0x31] 0 st
  let buf := (pread sys fd 1 0 st).1
  let st := (pread sys fd 1 0 st).2
  let st := { st with cal := { st.cal with h1rh := Int.tdiv (buf : Int) 2 } }
  let st := pwrite fd [0x35] 0 st
  let tmp := (pread sys fd 1 0 st).1
  let st := (pread sys fd 1 0 st).2
  let st := pwrite fd [0x32] 0 st
  let buf := (pread sys fd 1 0 st).1
  let st := (pread sys fd 1 0 st).2
  let st := { st with cal := { st.cal with t0degc := ((buf ||| ((tmp &&& 0x3) <<< 8) : Nat) : Int) } }
  let st := { st with cal := { st.cal with t0degc := Int.tdiv st.cal.t0degc 8 } }
  let st := pwrite fd [0x33] 0 st
  let buf := (pread sys fd 1 0 st).1
  let st := (pread sys fd 1 0 st).2
  let st := { st with cal := { st.cal with t1degc := ((buf ||| ((tmp &&& 0xC) <<< 6) : Nat) : Int) } }
  let st := { st with cal := { st.cal with t1degc := Int.tdiv st.cal.t1degc 8 } }
  let st := pwrite fd [0x36] 0 st
  let buf := (pread sys fd 1 0 st).1
  let st := (pread sys fd 1 0 st).2
  let st := pwrite fd [0x37] 0 st
  let tmp := (pread sys fd 1 0 st).1
  let st := (pread sys fd 1 0 st).2
  let st := { st with cal := { st.cal with h0out := ((buf ||| (tmp <<< 8) : Nat) : Int) } }
  let st := pwrite fd [0x3A] 0 st
  let buf := (pread sys fd 1 0 st).1
  let st := (pread sys fd 1 0 st).2
  let st := pwrite fd [0x3B] 0 st
  let tmp := (pread sys fd 1 0 st).1
  let st := (pread sys fd 1 0 st).2
  let st := { st with cal := { st.cal with h1out := ((buf ||| (tmp <<< 8) : Nat) : Int) } }
  let st := pwrite fd [0x3C] 0 st
  let buf := (pread sys fd 1 0 st).1
  let st := (pread sys fd 1 0 st).2
  let st := pwrite fd [0x3D] 0 st
  let tmp := (pread sys fd 1 0 st).1
  let st := (pread sys fd 1 0 st).2
  let st := { st with cal := { st.cal with t0out := ((buf ||| (tmp <<< 8) : Nat) : Int) } }
  let st := pwrite fd [0x3E] 0 st
  let buf := (pread sys fd 1 0 st).1
  let st := (pread sys fd 1 0 st).2
  let st := pwrite fd [0x3F] 0 st
  let tmp := (pread sys fd 1 0 st).1
  let st := (pread sys fd 1 0 st).2
  let st := { st with cal := { st.cal with t1out := ((buf ||| (tmp <<< 8) : Nat) : Int) } }
  let st := dprint "read..." st
  let st := { st with cal := { st.cal with
    h0out := if st.cal.h0out > 32767 then st.cal.h0out - 65536 else st.cal.h0out } }
  let st := { st with cal := { st.cal with
    h1out := if st.cal.h1out > 32767 then st.cal.h1out - 65536 else st.cal.h1out } }
  let st := { st with cal := { st.cal with
    t0out := if st.cal.t0out > 32767 then st.cal.t0out - 65536 else st.cal.t0out } }
  let st := { st with cal := { st.cal with
    t0out := if st.cal.t1out > 32767 then st.cal.t0out - 65536 else st.cal.t0out } }
  dprint ("got \n" ++ fmtD st.cal.h0rh ++ "\n" ++ fmtD st.cal.h1rh ++ "\n"
    ++ fmtD st.cal.h0out ++ "\n" ++ fmtD st.cal.h1out ++ "\n"
    ++ fmtD st.cal.t0degc ++ "\n" ++ fmtD st.cal.t1degc ++ "\n"
    ++ fmtD st.cal.t0out ++ "\n" ++ fmtD st.cal.t1out ++ "\n") st

/-- The C function `initlsp25h`. -/
def initlsp25h (sys : Sys) (on_ : Int) (st : St) : Option String × St :=
  let (fd, st) := openDev sys "/dev/i2c1/i2c.5c.data" st
  if fd < 0 then (some "open lsp25h fail", st) else
  if on_ ≠ 0 then
    let st := pwrite fd [0x20, 0x90] 0 st
    let st := pwrite fd [0x21, 0x80] 0 st
    let st := sleep 100 st
    let st := dprint ("init lsp25h " ++ fmtD fd ++ "\n") st
    let st := close fd st
    (none, st)
  else
    let st := pwrite fd [0x20, 0x00] 0 st
    let st := dprint ("close lsp25h " ++ fmtD fd ++ "\n") st
    let st := close fd st
    (none, st)

/-- The C function `inithts221`. -/
def inithts221 (sys : Sys) (on_ : Int) (st : St) : Option String × St :=
  let st := dprint "init hts221..." st
  let (fd, st) := openDev sys "/dev/i2c1/i2c.5f.data" st
  if fd < 0 then (some "open hts221 fail", st) else
  if on_ ≠ 0 then
    let st := pwrite fd [0x10, 0x1B] 0 st
    let st := pwrite fd [0x20, 0x81] 0 st
    let st := pwrite fd [0x21, 0x81] 0 st
    let st := getcal sys fd st
    let st := dprint ("done " ++ fmtD fd ++ "\n") st
    let st := close fd st
    (none, st)
  else
    let st := pwrite fd [0x20, 0x00] 0 st
    let st := dprint ("close hts221 " ++ fmtD fd ++ "\n") st
    let st := close fd st
    (none, st)

/-- The C function `initlsm9mag`. -/
def initlsm9mag (sys : Sys) (on_ : Int) (st : St) : Option String × St :=
  let (fd, st) := openDev sys "/dev/i2c1/i2c.1c.data" st
  if fd < 0 then (some "open lsm9mag fail", st) else
  if on_ ≠ 0 then
    let st := pwrite fd [0x20, 0x50] 0 st
    let st := pwrite fd [0x21, 0x00] 0 st
    let st := pwrite fd [0x22, 0x00] 0 st
    let st := pwrite fd [0x23, 0x08] 0 st
    let st := dprint ("init lsm9mag " ++ fmtD fd ++ "\n") st
    let st := close fd st
    (none, st)
  else
    let st := pwrite fd [0x22, 0x03] 0 st
    let st := dprint ("close lsm9mag " ++ fmtD fd ++ "\n") st
    let st := close fd st
    (none, st)

/-- The C function `initlsm9gyac`. -/
def initlsm9gyac (sys : Sys) (on_ : Int) (st : St) : Option String × St :=
  let (fd, st) := openDev sys "/dev/i2c1/i2c.6a.data" st
  if fd < 0 then (some "open lsm9gyac fail", st) else
  if on_ ≠ 0 then
    let st := pwrite fd [0x20, 0x60] 0 st
    let st := pwrite fd [0x10, 0x68] 0 st
    let st := pwrite fd [0x1E, 0x38] 0 st
    let st := dprint ("init lsm8ag " ++ fmtD fd ++ "\n") st
    let st := close fd st
    (none, st)
  else
    let st := pwrite fd [0x20, 0x00] 0 st
    let st := dprint ("close lsm9gyac " ++ fmtD fd ++ "\n") st
    let st := close fd st
    (none, st)

/-- The C function `initled`; its body has no call of `close`. -/
def initled (sys : Sys) (on_ : Int) (st : St) : Option String × St :=
  let (fd, st) := openDev sys "/dev/i2c1/i2c.46.data" st
  if fd < 0 then (some "open led fail", st) else
  let st := if on_ ≠ 0 then dprint ("init led " ++ fmtD fd ++ "\n") st
    else dprint ("close led " ++ fmtD fd ++ "\n") st
  let buf := List.replicate 193 0
  let st := pwrite fd buf 0 st
  (none, st)

/-! ## Read handlers -/

/-- The C function `readtempp`. -/
def readtempp (sys : Sys) (r : Req) (st : St) : Option String × St :=
  let (fd, st) := openDev sys "/dev/i2c1/i2c.5c.data" st
  if fd < 0 then (some "open I²C fail", st) else
  let st := pwrite fd [0x2B] 0 st
  let tempol := (pread sys fd 1 0 st).1
  let st := (pread sys fd 1 0 st).2
  let st := pwrite fd [0x2C] 0 st
  let tempoh := (pread sys fd 1 0 st).1
  let st := (pread sys fd 1 0 st).2
  let temp : Int := ((tempol ||| (tempoh <<< 8) : Nat) : Int)
  let temp := if temp > 32767 then temp - 65536 else temp
  let temp := 425 + Int.tdiv temp 48
  let out := fmtD (Int.tdiv temp 10) ++ "." ++ fmtD (Int.tmod temp 10) ++ "\n"
  let st := close fd st
  let st := readstr r out st
  (none, st)

/-- The C function `readpress`. -/
def readpress (sys : Sys) (r : Req) (st : St) : Option String × St :=
  let (fd, st) := openDev sys "/dev/i2c1/i2c.5c.data" st
  if fd < 0 then (some "open I²C fail", st) else
  let st := pwrite fd [0x28] 0 st
  let presoxl := (pread sys fd 1 0 st).1
  let st := (pread sys fd 1 0 st).2
  let st := pwrite fd [0x29] 0 st
  let presol := (pread sys fd 1 0 st).1
  let st := (pread sys fd 1 0 st).2
  let st := pwrite fd [0x2A] 0 st
  let presoh := (pread sys fd 1 0 st).1
  let st := (pread sys fd 1 0 st).2
  let press : Int := ((presoxl ||| (presol <<< 8) ||| (presoh <<< 16) : Nat) : Int)
  let press := Int.tdiv press 4096
  let out := fmtD press ++ "\n"
  let st := close fd st
  let st := readstr r out st
  (none, st)

/-- The arithmetic of `readtemph` between its two `pread` calls and its
`sprint`: the `float temp` computed from the bytes `low[0]` and `high[0]`. -/
def temphValue (cal : CalTable) (low high : Nat) : FloatVal :=
  let tout : Int := ((low ||| (high <<< 8) : Nat) : Int)
  let tout := if tout > 32767 then tout - 65536 else tout
  let foo := FloatVal.ofInt (wrap32 (wrap32 (tout - cal.t0out) * wrap32 (cal.t1degc - cal.t0degc)))
  let bar := FloatVal.ofInt (wrap32 (cal.t1out - cal.t0out))
  let temp := FloatVal.add (FloatVal.div foo bar) (FloatVal.ofInt cal.t0degc)
  temp

/-- The C function `readtemph`. -/
def readtemph (sys : Sys) (r : Req) (st : St) : Option String × St :=
  let (fd, st) := openDev sys "/dev/i2c1/i2c.5f.data" st
  if fd < 0 then (some "open I²C fail", st) else
  let st := pwrite fd [0x2A] 0 st
  let low := (pread sys fd 1 0 st).1
  let st := (pread sys fd 1 0 st).2
  let st := pwrite fd [0x2B] 0 st
  let high := (pread sys fd 1 0 st).1
  let st := (pread sys fd 1 0 st).2
  let temp := temphValue st.cal low high
  let out := sys.fmt1f temp ++ "\n"
  let st := close fd st
  let st := readstr r out st
  (none, st)

/-- The arithmetic of `readhumid` between its two `pread` calls and its
`sprint`: the `float humid` computed from the bytes `low[0]` and `high[0]`. -/
def humidValue (cal : CalTable) (low high : Nat) : FloatVal :=
  let hout : Int := ((low ||| (high <<< 8) : Nat) : Int)
  let hout := if hout > 32767 then hout - 65536 else hout
  let foo := FloatVal.ofInt (wrap32 (wrap32 (hout - cal.h0out) * wrap32 (cal.h1rh - cal.h0rh)))
  let bar := FloatVal.ofInt (wrap32 (cal.h1out - cal.h0out))
  let humid := FloatVal.add (FloatVal.div foo bar) (FloatVal.ofInt cal.h0rh)
  humid

/-- The C function `readhumid`. -/
def readhumid (sys : Sys) (r : Req) (st : St) : Option String × St :=
  let (fd, st) := openDev sys "/dev/i2c1/i2c.5f.data" st
  if fd < 0 then (some "open I²C fail", st) else
  let st := pwrite fd [0x28] 0 st
  let low := (pread sys fd 1 0 st).1
  let st := (pread sys fd 1 0 st).2
  let st := pwrite fd [0x29] 0 st
  let high := (pread sys fd 1 0 st).1
  let st := (pread sys fd 1 0 st).2
  let humid := humidValue st.cal low high
  let out := sys.fmt1f humid ++ "\n"
  let st := close fd st
  let st := readstr r out st
  (none, st)

/-- The C function `readaccel`. -/
def readaccel (sys : Sys) (r : Req) (st : St) : Option String × St :=
  let (fd, st) := openDev sys "/dev/i2c1/i2c.6a.data" st
  if fd < 0 then (some "open I²C fail", st) else
  let st := pwrite fd [0x28] 0 st
  let low := (pread sys fd 1 0 st).1
  let st := (pread sys fd 1 0 st).2
  let st := pwrite fd [0x29] 0 st
  let high := (pread sys fd 1 0 st).1
  let st := (pread sys fd 1 0 st).2
  let o : Int := ((low ||| (high <<< 8) : Nat) : Int)
  let o := if o > 32757 then o - 65536 else o
  let x := o
  let st := pwrite fd [0x2A] 0 st
  let low := (pread sys fd 1 0 st).1
  let st := (pread sys fd 1 0 st).2
  let st := pwrite fd [0x2B] 0 st
  let high := (pread sys fd 1 0 st).1
  let st := (pread sys fd 1 0 st).2
  let o : Int := ((low ||| (high <<< 8) : Nat) : Int)
  let o := if o > 32757 then o - 65536 else o
  let y := o
  let st := pwrite fd [0x2C] 0 st
  let low := (pread sys fd 1 0 st).1
  let st := (pread sys fd 1 0 st).2
  let st := pwrite fd [0x2D] 0 st
  let high := (pread sys fd 1 0 st).1
  let st := (pread sys fd 1 0 st).2
  let o : Int := ((low ||| (high <<< 8) : Nat) : Int)
  let o := if o > 32757 then o - 65536 else o
  let z := o
  let out := fmtD x ++ " " ++ fmtD y ++ " " ++ fmtD z ++ "\n"
  let st := close fd st
  let st := readstr r out st
  (none, st)

/-- The C function `readgyro`. -/
def readgyro (sys : Sys) (r : Req) (st : St) : Option String × St :=
  let (fd, st) := openDev sys "/dev/i2c1/i2c.6a.data" st
  if fd < 0 then (some "open I²C fail", st) else
  let st := pwrite fd [0x18] 0 st
  let low := (pread sys fd 1 0 st).1
  let st := (pread sys fd 1 0 st).2
  let st := pwrite fd [0x19] 0 st
  let high := (pread sys fd 1 0 st).1
  let st := (pread sys fd 1 0 st).2
  let o : Int := ((low ||| (high <<< 8) : Nat) : Int)
  let o := if o > 32757 then o - 65536 else o
  let x := o
  let st := pwrite fd [0x1A] 0 st
  let low := (pread sys fd 1 0 st).1
  let st := (pread sys fd 1 0 st).2
  let st := pwrite fd [0x1B] 0 st
  let high := (pread sys fd 1 0 st).1
  let st := (pread sys fd 1 0 st).2
  let o : Int := ((low ||| (high <<< 8) : Nat) : Int)
  let o := if o > 32757 then o - 65536 else o
  let y := o
  let st := pwrite fd [0x1C] 0 st
  let low := (pread sys fd 1 0 st).1
  let st := (pread sys fd 1 0 st).2
  let st := pwrite fd [0x1D] 0 st
  let high := (pread sys fd 1 0 st).1
  let st := (pread sys fd 1 0 st).2
  let o : Int := ((low ||| (high <<< 8) : Nat) : Int)
  let o := if o > 32757 then o - 65536 else o
  let z := o
  let out := fmtD x ++ " " ++ fmtD y ++ " " ++ fmtD z ++ "\n"
  let st := close fd st
  let st := readstr r out st
  (none, st)

/-- The C function `readmag`. -/
def readmag (sys : Sys) (r : Req) (st : St) : Option String × St :=
  let (fd, st) := openDev sys "/dev/i2c1/i2c.1c.data" st
  if fd < 0 then (some "open I²C fail", st) else
  let st := pwrite fd [0x28] 0 st
  let low := (pread sys fd 1 0 st).1
  let st := (pread sys fd 1 0 st).2
  let st := pwrite fd [0x29] 0 st
  let high := (pread sys fd 1 0 st).1
  let st := (pread sys fd 1 0 st).2
  let o : Int := ((low ||| (high <<< 8) : Nat) : Int)
  let o := if o > 32767 then o - 65536 else o
  let x := o
  let st := pwrite fd [0x2A] 0 st
  let low := (pread sys fd 1 0 st).1
  let st := (pread sys fd 1 0 st).2
  let st := pwrite fd [0x2B] 0 st
  let high := (pread sys fd 1 0 st).1
  let st := (pread sys fd 1 0 st).2
  let o : Int := ((low ||| (high <<< 8) : Nat) : Int)
  let o := if o > 32767 then o - 65536 else o
  let y := o
  let st := pwrite fd [0x2C] 0 st
  let low := (pread sys fd 1 0 st).1
  let st := (pread sys fd 1 0 st).2
  let st := pwrite fd [0x2D] 0 st
  let high := (pread sys fd 1 0 st).1
  let st := (pread sys fd 1 0 st).2
  let o : Int := ((low ||| (high <<< 8) : Nat) : Int)
  let o := if o > 32767 then o - 65536 else o
  let z := o
  let out := fmtD x ++ " " ++ fmtD y ++ " " ++ fmtD z ++ "\n"
  let st := close fd st
  let st := readstr r out st
  (none, st)

/-! ## The write handler -/

/-- The C function `writeled`: `memmove` copies the 192 bytes found at
`r->ifcall.data`, whatever `r->ifcall.count` is. -/
def writeled (sys : Sys) (r : Req) (st : St) : Option String × St :=
  let (fd, st) := openDev sys "/dev/i2c1/i2c.46.data" st
  if fd < 0 then (some "open I²C fail", st) else
  let buf := (List.range 192).map r.data
  let st := pwrite fd buf 0 st
  let st := close fd st
  (none, st)

/-! ## The table of files and the 9P callbacks -/

/-- The mode bit `DMEXCL` of `libc.h`. -/
def DMEXCL : Nat := 0x20000000

/-- The C `struct Devfile`; a `nil` handler is `none`. -/
structure Devfile where
  name : String
  rread : Option (Sys → Req → St → Option String × St)
  rwrite : Option (Sys → Req → St → Option String × St)
  mode : Nat

/-- The C array `files[]`. -/
def files : List Devfile := [
  ⟨"tempp", some readtempp, none, DMEXCL ||| 0o444⟩,
  ⟨"press", some readpress, none, DMEXCL ||| 0o444⟩,
  ⟨"temph", some readtemph, none, DMEXCL ||| 0o444⟩,
  ⟨"humid", some readhumid, none, DMEXCL ||| 0o444⟩,
  ⟨"accel", some readaccel, none, DMEXCL ||| 0o444⟩,
  ⟨"gyro", some readgyro, none, DMEXCL ||| 0o444⟩,
  ⟨"mag", some readmag, none, DMEXCL ||| 0o444⟩,
  ⟨"led", none, some writeled, DMEXCL ||| 0o222⟩ ]

/-- What a 9P callback did with its request: it called `respond(r, err)`, or
it called through a `nil` function pointer and never reached `respond`. -/
inductive Outcome where
  | responded (err : Option String) (st : St)
  | nilcall (st : St)

/-- The argument of `respond`, when `respond` was reached. -/
def Outcome.err : Outcome → Option (Option String)
  | .responded err _ => some err
  | .nilcall _ => none

/-- The state in which the callback stopped. -/
def Outcome.st : Outcome → St
  | .responded _ st => st
  | .nilcall st => st

/-- The C function `rread`, with `f` the `Devfile` at `r->fid->file->aux`. -/
def rread (sys : Sys) (f : Devfile) (r : Req) (st : St) : Outcome :=
  let st := { st with ofcount := 0 }
  match f.rread with
  | none => Outcome.nilcall st
  | some h =>
    let (err, st) := h sys r st
    Outcome.responded err st

/-- The C function `rwrite`, with `f` the `Devfile` at `r->fid->file->aux`. -/
def rwrite (sys : Sys) (f : Devfile) (r : Req) (st : St) : Outcome :=
  let st := { st with ofcount := r.count }
  match f.rwrite with
  | none => Outcome.nilcall st
  | some h =>
    let (err, st) := h sys r st
    Outcome.responded err st

/-! ## The sign extension as the specification words it -/

/-- The rule of the specification for a raw 16-bit register pair `r`: from
32768 on the value is `r - 65536`, below it is `r` unchanged. -/
def specSignExt (r : Nat) : Int := if r ≥ 32768 then (r : Int) - 65536 else (r : Int)

/-! ## Concrete devices and requests used in the evaluations below -/

/-- A read request; its payload is not used by the read handlers. -/
def req0 : Req := ⟨0, fun _ => 0⟩

/-- A write request that carries 10 bytes. -/
def req10 : Req := ⟨10, fun i => if i < 10 then 0xFF else 0⟩

/-- A world in which every open succeeds with descriptor 3 and every register
reads 0, but for the listed registers of the device behind `path`. -/
def sysWith (path : String) (vals : List (Nat × Nat)) : Sys where
  fdOf := fun _ => 3
  regs := fun p a => if p = path then (vals.lookup a).getD 0 else 0
  fmt1f := fun _ => "?"

/-- The state in which the server starts: nothing open, `cal` all zero. -/
def st0 : St := St.init 0 CalTable.zero

/-- A humidity device with calibration registers H0_rH_x2 = 0x50,
H1_rH_x2 = 0xA0, T0_degC_x8 = 0xA0, T1_degC_x8 = 0xF0, T1/T0 msb = 0x0B,
H0_T0_OUT = 0x0000, H1_T0_OUT = 0x1000, T0_OUT = 0x0000, T1_OUT = 0x0200. -/
def sysCal : Sys :=
  sysWith "/dev/i2c1/i2c.5f.data"
    [(0x30, 0x50), (0x31, 0xA0), (0x32, 0xA0), (0x33, 0xF0), (0x35, 0x0B),
     (0x3B, 0x10), (0x3F, 0x02)]

/-- The channel `inithts221` holds while it runs `getcal`. -/
def chanHts : Chan := ⟨3, "/dev/i2c1/i2c.5f.data", 0⟩

/-- A state in which that channel is open and `cal` is still all zero. -/
def stHts : St := ⟨0, CalTable.zero, [chanHts], [], 0, none⟩

/-! ## Theorems -/

/-! ### Bytes and bit operations -/

theorem byte2_or (a b : Nat) (ha : a < 256) :
    a ||| (b <<< 8) = a + 256 * b := by
  have h := Nat.mul_add_lt_is_or (i := 8) (b := a) (by simpa using ha) b
  rw [Nat.shiftLeft_eq, Nat.lor_comm, Nat.mul_comm, ← h]
  omega

theorem byte3_or (a b c : Nat) (ha : a < 256) (hb : b < 256) :
    a ||| (b <<< 8) ||| (c <<< 16) = a + 256 * b + 65536 * c := by
  have h := Nat.mul_add_lt_is_or (i := 16) (b := a + 256 * b)
    (by norm_num; omega) c
  rw [byte2_or a b ha, Nat.shiftLeft_eq, Nat.lor_comm, Nat.mul_comm, ← h]
  omega

/-! ### The register transport, projection by projection -/

theorem find_setReg (fd : Int) (a : Nat) (cs : List Chan) :
    (setReg fd a cs).find? (fun c => decide (c.fd = fd))
      = (cs.find? (fun c => decide (c.fd = fd))).map (fun c => { c with reg := a }) := by
  induction cs with
  | nil => rfl
  | cons c cs ih =>
    by_cases h : c.fd = fd
    · simp [setReg, h, List.find?]
    · simp [setReg, h, List.find?, ih]

theorem dprint_cal (s : String) (st : St) : (dprint s st).cal = st.cal := rfl

theorem dprint_chans (s : String) (st : St) : (dprint s st).chans = st.chans := rfl

theorem pwrite_cal (fd : Int) (buf : List Nat) (off : Nat) (st : St) :
    (pwrite fd buf off st).cal = st.cal := rfl

theorem pwrite_chans (fd : Int) (a : Nat) (l : List Nat) (off : Nat) (st : St) :
    (pwrite fd (a :: l) off st).chans = setReg fd a st.chans := rfl

theorem pread_cal (sys : Sys) (fd : Int) (n off : Nat) (st : St) :
    (pread sys fd n off st).2.cal = st.cal := rfl

theorem pread_chans (sys : Sys) (fd : Int) (n off : Nat) (st : St) :
    (pread sys fd n off st).2.chans = st.chans := rfl

theorem pread_val (sys : Sys) (fd : Int) (n off : Nat) (st : St) :
    (pread sys fd n off st).1 =
      match st.chans.find? (fun c => decide (c.fd = fd)) with
      | some c => sys.regs c.path c.reg % 256
      | none => 0 := rfl

/-! ### Pressure -/

/-- C7: for every triple of bytes (xl, low, high) read from the pressure
registers 0x28, 0x29, 0x2A of the barometric device, `readpress` succeeds and
responds with the decimal integer floor((xl + 256*low + 65536*high) / 4096)
followed by a newline, and that integer lies in 0..4095. -/
theorem readpress_response (sys : Sys) (r : Req) (st : St) (xl low high : Nat)
    (hopen : 0 ≤ sys.fdOf "/dev/i2c1/i2c.5c.data")
    (hxl : sys.regs "/dev/i2c1/i2c.5c.data" 0x28 % 256 = xl)
    (hlow : sys.regs "/dev/i2c1/i2c.5c.data" 0x29 % 256 = low)
    (hhigh : sys.regs "/dev/i2c1/i2c.5c.data" 0x2A % 256 = high) :
    (readpress sys r st).1 = none ∧
    (readpress sys r st).2.resp
      = some (fmtD (((xl + 256 * low + 65536 * high) / 4096 : Nat) : Int) ++ "\n") ∧
    (xl + 256 * low + 65536 * high) / 4096 ≤ 4095 := by
  have hnot : ¬ sys.fdOf "/dev/i2c1/i2c.5c.data" < 0 := not_lt.mpr hopen
  have bxl : xl < 256 := hxl ▸ Nat.mod_lt _ (by norm_num)
  have blow : low < 256 := hlow ▸ Nat.mod_lt _ (by norm_num)
  have bhigh : high < 256 := hhigh ▸ Nat.mod_lt _ (by norm_num)
  refine ⟨?_, ?_, by omega⟩
  · simp [readpress, openDev, hnot]
  · simp [readpress, openDev, pwrite, pread, close, readstr, setReg, hnot, hxl, hlow, hhigh,
      byte3_or xl low high bxl blow]
    rw [Int.tdiv_eq_ediv (by positivity) (by norm_num)]

/-- The instance of C7 named in the claim: (xl, low, high) = (0x00, 0x00, 0x01)
gives the response "16\n". -/
theorem readpress_response_witness :
    (readpress (sysWith "/dev/i2c1/i2c.5c.data" [(0x2A, 1)]) req0 st0).1 = none ∧
    (readpress (sysWith "/dev/i2c1/i2c.5c.data" [(0x2A, 1)]) req0 st0).2.resp = some "16\n" ∧
    (0 + 256 * 0 + 65536 * 1) / 4096 ≤ 4095 :=
  readpress_response (sysWith "/dev/i2c1/i2c.5c.data" [(0x2A, 1)]) req0 st0 0 0 1
    (by decide) (by decide) (by decide) (by decide)

/-! ### The sign threshold of the accelerometer and gyroscope handlers -/

/-- C1: with the X axis bytes (low, high) = (0xF6, 0x7F), a raw pair of 32758
that is below 32768, `readaccel` and `readgyro` both respond "-32778 0 0\n",
where the signed 16-bit value is 32758; `readmag`, whose test is against
32767, responds "32758 0 0\n" on the same bytes. -/
theorem readaccel_readgyro_threshold :
    (readaccel (sysWith "/dev/i2c1/i2c.6a.data" [(0x28, 0xF6), (0x29, 0x7F)]) req0 st0).2.resp
      = some "-32778 0 0\n" ∧
    (readgyro (sysWith "/dev/i2c1/i2c.6a.data" [(0x18, 0xF6), (0x19, 0x7F)]) req0 st0).2.resp
      = some "-32778 0 0\n" ∧
    (readmag (sysWith "/dev/i2c1/i2c.1c.data" [(0x28, 0xF6), (0x29, 0x7F)]) req0 st0).2.resp
      = some "32758 0 0\n" ∧
    specSignExt (0xF6 + 256 * 0x7F) = 32758 := by
  decide

/-! ### Barometric temperature -/

/-- C2: with the temperature bytes (low, high) = (0x20, 0xB0), a raw value of
-20448 and t = 425 + (-426) = -1, `readtempp` responds "0.-1\n": two
characters follow the point and the sign is lost from the whole part.  With
(low, high) = (0x00, 0x00) the response is "42.5\n". -/
theorem readtempp_negative_tenths :
    (readtempp (sysWith "/dev/i2c1/i2c.5c.data" [(0x2B, 0x20), (0x2C, 0xB0)]) req0 st0).2.resp
      = some "0.-1\n" ∧
    (readtempp (sysWith "/dev/i2c1/i2c.5c.data" []) req0 st0).2.resp = some "42.5\n" := by
  decide

/-! ### The calibration table -/

/-- C8: with register 0x3F at 0x80 and the other calibration registers at 0,
the pair of `t1out` is 32768 and the pair of `t0out` is 0; after `getcal`,
run by `inithts221(1)`, `t1out` is 32768 and not -32768, and `t0out` is -65536
and not 0, while `h0out` and `h1out` on the same bytes in their registers are
sign-extended. -/
theorem getcal_t1out_not_extended :
    (inithts221 (sysWith "/dev/i2c1/i2c.5f.data" [(0x3F, 0x80)]) 1 st0).2.cal.t1out = 32768 ∧
    (inithts221 (sysWith "/dev/i2c1/i2c.5f.data" [(0x3F, 0x80)]) 1 st0).2.cal.t0out = -65536 ∧
    specSignExt (0x00 + 256 * 0x80) = -32768 ∧
    (inithts221 (sysWith "/dev/i2c1/i2c.5f.data" [(0x37, 0x80), (0x3B, 0x80)]) 1 st0).2.cal.h0out
      = -32768 ∧
    (inithts221 (sysWith "/dev/i2c1/i2c.5f.data" [(0x37, 0x80), (0x3B, 0x80)]) 1 st0).2.cal.h1out
      = -32768 := by
  decide

/-! ### Channels left open -/

set_option maxRecDepth 8000 in
/-- C10: `initled` with a successful open, for power-up and for power-down,
returns nil after `open` and one `pwrite` of 193 zero bytes, with no `close`:
the channel is still open on return.  `initlsp25h` on the same world returns
with no channel open. -/
theorem initled_leaves_channel_open :
    (initled (sysWith "" []) 1 st0).1 = none ∧
    (initled (sysWith "" []) 1 st0).2.chans = [⟨3, "/dev/i2c1/i2c.46.data", 0⟩] ∧
    (initled (sysWith "" []) 1 st0).2.trace
      = [Ev.open "/dev/i2c1/i2c.46.data", Ev.pwrite 3 (List.replicate 193 0) 0] ∧
    (initled (sysWith "" []) 0 st0).2.chans = [⟨3, "/dev/i2c1/i2c.46.data", 0⟩] ∧
    (initled (sysWith "" []) 0 st0).2.trace
      = [Ev.open "/dev/i2c1/i2c.46.data", Ev.pwrite 3 (List.replicate 193 0) 0] ∧
    (initlsp25h (sysWith "" []) 1 st0).2.chans = [] := by
  decide

/-! ### The float arithmetic on the integers of this program -/

theorem roundHalfEven_intCast (m : Int) : roundHalfEven (m : ℚ) = m := by
  simp [roundHalfEven]

theorem roundF32_intCast (n : Int) (h : |n| < 2 ^ 24) : roundF32 (n : ℚ) = FloatVal.fin n := by
  by_cases h0 : n = 0
  · subst h0
    simp [roundF32, roundHalfEven]
  · have hq : (0 : ℚ) < |(n : ℚ)| := abs_pos.mpr (by exact_mod_cast h0)
    have h1 : (1 : ℚ) ≤ |(n : ℚ)| := by
      have : (1 : Int) ≤ |n| := Int.one_le_abs h0
      exact_mod_cast this
    have h24 : |(n : ℚ)| < (2 : ℚ) ^ (24 : Int) := by
      have : ((|n| : Int) : ℚ) < ((2 ^ 24 : Int) : ℚ) := by exact_mod_cast h
      rw [Int.cast_abs] at this
      calc |(n : ℚ)| < ((2 ^ 24 : Int) : ℚ) := this
        _ = (2 : ℚ) ^ (24 : Int) := by norm_num
    have hL0 : (0 : Int) ≤ Int.log 2 |(n : ℚ)| := by
      rw [← Int.zpow_le_iff_le_log (by norm_num) hq]
      simpa using h1
    have hL1 : Int.log 2 |(n : ℚ)| < 24 := by
      rw [← Int.lt_zpow_iff_log_lt (by norm_num) hq]
      simpa using h24
    obtain ⟨k, hk⟩ : ∃ k : Nat, (k : Int) = 23 - Int.log 2 |(n : ℚ)| :=
      ⟨(23 - Int.log 2 |(n : ℚ)|).toNat, by omega⟩
    have he : max (Int.log 2 |(n : ℚ)|) (-126) - 23 = -(k : Int) := by
      rw [max_eq_left (by omega)]; omega
    have hdiv : (n : ℚ) / (2 : ℚ) ^ (-(k : Int)) = ((n * 2 ^ k : Int) : ℚ) := by
      rw [zpow_neg, zpow_natCast]
      push_cast
      field_simp
    have hr : (((n * 2 ^ k : Int) : ℚ)) * (2 : ℚ) ^ (-(k : Int)) = n := by
      rw [zpow_neg, zpow_natCast]
      push_cast
      field_simp
    have hlt : ¬ ((2 : ℚ) ^ (128 : Nat) ≤ |(n : ℚ)|) := by
      rw [not_le]
      calc |(n : ℚ)| < (2 : ℚ) ^ (24 : Int) := h24
        _ ≤ (2 : ℚ) ^ (128 : Nat) := by norm_num
    unfold roundF32
    simp only [he, hdiv, roundHalfEven_intCast, hr, hlt, if_false]

theorem wrap32_id (x : Int) (h : -2147483648 ≤ x ∧ x < 2147483648) : wrap32 x = x := by
  unfold wrap32; omega

theorem ofInt_small (n : Int) (h : |n| < 2 ^ 24) : FloatVal.ofInt n = FloatVal.fin n :=
  roundF32_intCast n h

/-- The interpolation of `readhumid` and `readtemph` on a table within the
ranges `getcal` produces: exact at both reference points. -/
theorem interp_exact (raw out0 out1 ref0 ref1 : Int)
    (hraw : -32768 ≤ raw ∧ raw ≤ 32767)
    (h0 : -98304 ≤ out0 ∧ out0 ≤ 65535) (h1 : -98304 ≤ out1 ∧ out1 ≤ 65535)
    (r0 : 0 ≤ ref0 ∧ ref0 ≤ 127) (r1 : 0 ≤ ref1 ∧ ref1 ≤ 127) (hne : out1 ≠ out0) :
    (raw = out0 →
      FloatVal.add (FloatVal.div
        (FloatVal.ofInt (wrap32 (wrap32 (raw - out0) * wrap32 (ref1 - ref0))))
        (FloatVal.ofInt (wrap32 (out1 - out0)))) (FloatVal.ofInt ref0) = FloatVal.fin ref0) ∧
    (raw = out1 →
      FloatVal.add (FloatVal.div
        (FloatVal.ofInt (wrap32 (wrap32 (raw - out0) * wrap32 (ref1 - ref0))))
        (FloatVal.ofInt (wrap32 (out1 - out0)))) (FloatVal.ofInt ref0) = FloatVal.fin ref1) := by
  have hw1 : wrap32 (raw - out0) = raw - out0 := wrap32_id _ (by omega)
  have hw2 : wrap32 (ref1 - ref0) = ref1 - ref0 := wrap32_id _ (by omega)
  have hw3 : wrap32 (out1 - out0) = out1 - out0 := wrap32_id _ (by omega)
  have hprod : |(raw - out0) * (ref1 - ref0)| < 2 ^ 24 := by
    rw [abs_mul]
    have ha : |raw - out0| ≤ 131071 := abs_le.mpr ⟨by omega, by omega⟩
    have hb : |ref1 - ref0| ≤ 127 := abs_le.mpr ⟨by omega, by omega⟩
    calc |raw - out0| * |ref1 - ref0| ≤ 131071 * 127 :=
          mul_le_mul ha hb (abs_nonneg _) (by norm_num)
      _ < 2 ^ 24 := by norm_num
  have hw4 : wrap32 ((raw - out0) * (ref1 - ref0)) = (raw - out0) * (ref1 - ref0) :=
    wrap32_id _ (by
      have := abs_lt.mp hprod
      constructor
      · linarith [this.1]
      · linarith [this.2])
  have hbar : FloatVal.ofInt (out1 - out0) = FloatVal.fin ((out1 - out0 : Int) : ℚ) :=
    ofInt_small _ (abs_lt.mpr ⟨by omega, by omega⟩)
  have hfoo : FloatVal.ofInt ((raw - out0) * (ref1 - ref0))
      = FloatVal.fin (((raw - out0) * (ref1 - ref0) : Int) : ℚ) := ofInt_small _ hprod
  have href : FloatVal.ofInt ref0 = FloatVal.fin (ref0 : ℚ) :=
    ofInt_small _ (abs_lt.mpr ⟨by omega, by omega⟩)
  have hbne : ((out1 - out0 : Int) : ℚ) ≠ 0 := by
    exact_mod_cast sub_ne_zero.mpr hne
  rw [hw1, hw2, hw3, hw4, hbar, hfoo, href]
  constructor
  · intro h
    have hz : (((raw - out0) * (ref1 - ref0) : Int) : ℚ) / ((out1 - out0 : Int) : ℚ)
        = ((0 : Int) : ℚ) := by
      rw [h]; simp
    simp only [FloatVal.div, if_neg hbne, hz]
    rw [roundF32_intCast 0 (by norm_num)]
    simp only [FloatVal.add]
    have : ((0 : Int) : ℚ) + (ref0 : ℚ) = ((ref0 : Int) : ℚ) := by simp
    rw [this, roundF32_intCast ref0 (abs_lt.mpr ⟨by omega, by omega⟩)]
  · intro h
    have hz : (((raw - out0) * (ref1 - ref0) : Int) : ℚ) / ((out1 - out0 : Int) : ℚ)
        = ((ref1 - ref0 : Int) : ℚ) := by
      rw [h]
      push_cast at hbne ⊢
      field_simp
    simp only [FloatVal.div, if_neg hbne, hz]
    rw [roundF32_intCast (ref1 - ref0) (abs_lt.mpr ⟨by omega, by omega⟩)]
    simp only [FloatVal.add]
    have : ((ref1 - ref0 : Int) : ℚ) + (ref0 : ℚ) = ((ref1 : Int) : ℚ) := by push_cast; ring
    rw [this, roundF32_intCast ref1 (abs_lt.mpr ⟨by omega, by omega⟩)]

/-! ### The table computed by getcal -/

set_option maxRecDepth 100000 in
theorem and3_eq_mod (b : Nat) (h : b < 256) : b &&& 3 = b % 4 := by
  revert b; decide

set_option maxRecDepth 100000 in
theorem andC_shift (b : Nat) (h : b < 256) : (b &&& 12) <<< 6 = (b / 4 % 4) <<< 8 := by
  revert b; decide

/-- The table `getcal` leaves in `cal`, field by field, from the bytes of the
calibration registers. -/
theorem getcal_cal (sys : Sys) (fd : Int) (st : St) (c : Chan)
    (hfd : st.chans.find? (fun c => decide (c.fd = fd)) = some c) :
    (getcal sys fd st).cal =
      { h0rh := Int.tdiv ((sys.regs c.path 0x30 % 256 : Nat) : Int) 2
        h1rh := Int.tdiv ((sys.regs c.path 0x31 % 256 : Nat) : Int) 2
        h0out :=
          if ((sys.regs c.path 0x36 % 256 ||| (sys.regs c.path 0x37 % 256) <<< 8 : Nat) : Int) > 32767
          then ((sys.regs c.path 0x36 % 256 ||| (sys.regs c.path 0x37 % 256) <<< 8 : Nat) : Int) - 65536
          else ((sys.regs c.path 0x36 % 256 ||| (sys.regs c.path 0x37 % 256) <<< 8 : Nat) : Int)
        h1out :=
          if ((sys.regs c.path 0x3A % 256 ||| (sys.regs c.path 0x3B % 256) <<< 8 : Nat) : Int) > 32767
          then ((sys.regs c.path 0x3A % 256 ||| (sys.regs c.path 0x3B % 256) <<< 8 : Nat) : Int) - 65536
          else ((sys.regs c.path 0x3A % 256 ||| (sys.regs c.path 0x3B % 256) <<< 8 : Nat) : Int)
        t0degc := Int.tdiv ((sys.regs c.path 0x32 % 256
          ||| ((sys.regs c.path 0x35 % 256) &&& 0x3) <<< 8 : Nat) : Int) 8
        t1degc := Int.tdiv ((sys.regs c.path 0x33 % 256
          ||| ((sys.regs c.path 0x35 % 256) &&& 0xC) <<< 6 : Nat) : Int) 8
        t0out :=
          if ((sys.regs c.path 0x3E % 256 ||| (sys.regs c.path 0x3F % 256) <<< 8 : Nat) : Int) > 32767
          then
            (if ((sys.regs c.path 0x3C % 256 ||| (sys.regs c.path 0x3D % 256) <<< 8 : Nat) : Int) > 32767
            then ((sys.regs c.path 0x3C % 256 ||| (sys.regs c.path 0x3D % 256) <<< 8 : Nat) : Int) - 65536
            else ((sys.regs c.path 0x3C % 256 ||| (sys.regs c.path 0x3D % 256) <<< 8 : Nat) : Int)) - 65536
          else
            (if ((sys.regs c.path 0x3C % 256 ||| (sys.regs c.path 0x3D % 256) <<< 8 : Nat) : Int) > 32767
            then ((sys.regs c.path 0x3C % 256 ||| (sys.regs c.path 0x3D % 256) <<< 8 : Nat) : Int) - 65536
            else ((sys.regs c.path 0x3C % 256 ||| (sys.regs c.path 0x3D % 256) <<< 8 : Nat) : Int))
        t1out := ((sys.regs c.path 0x3E % 256 ||| (sys.regs c.path 0x3F % 256) <<< 8 : Nat) : Int) } := by
  simp only [getcal, dprint_cal, dprint_chans, pwrite_cal, pwrite_chans, pread_cal, pread_chans,
    pread_val, find_setReg, hfd, Option.map]

/-- The four reference values of the table, from the bytes of the registers
0x30, 0x31, 0x32, 0x33 and 0x35. -/
theorem getcal_refs (sys : Sys) (fd : Int) (st : St) (c : Chan)
    (b30 b31 b32 b33 b35 : Nat)
    (hfd : st.chans.find? (fun c => decide (c.fd = fd)) = some c)
    (h30 : sys.regs c.path 0x30 % 256 = b30)
    (h31 : sys.regs c.path 0x31 % 256 = b31)
    (h32 : sys.regs c.path 0x32 % 256 = b32)
    (h33 : sys.regs c.path 0x33 % 256 = b33)
    (h35 : sys.regs c.path 0x35 % 256 = b35) :
    (getcal sys fd st).cal.h0rh = ((b30 / 2 : Nat) : Int) ∧
    (getcal sys fd st).cal.h1rh = ((b31 / 2 : Nat) : Int) ∧
    (getcal sys fd st).cal.t0degc = (((b32 + 256 * (b35 % 4)) / 8 : Nat) : Int) ∧
    (getcal sys fd st).cal.t1degc = (((b33 + 256 * (b35 / 4 % 4)) / 8 : Nat) : Int) := by
  have l32 : b32 < 256 := h32 ▸ Nat.mod_lt _ (by norm_num)
  have l33 : b33 < 256 := h33 ▸ Nat.mod_lt _ (by norm_num)
  have l35 : b35 < 256 := h35 ▸ Nat.mod_lt _ (by norm_num)
  rw [getcal_cal sys fd st c hfd]
  refine ⟨?_, ?_, ?_, ?_⟩
  · simp only [h30, Int.ofNat_tdiv, Nat.cast_ofNat]
  · simp only [h31, Int.ofNat_tdiv, Nat.cast_ofNat]
  · simp only [h32, h35, and3_eq_mod b35 l35, byte2_or b32 _ l32, Int.ofNat_tdiv,
      Nat.cast_ofNat]
  · simp only [h33, h35, andC_shift b35 l35, byte2_or b33 _ l33, Int.ofNat_tdiv,
      Nat.cast_ofNat]

/-- C9: for every content b30, b31, b32, b33, b35 of the calibration registers
0x30, 0x31, 0x32, 0x33, 0x35, `getcal` on an open channel sets h0rh = b30/2,
h1rh = b31/2, t0degc = (b32 + 256*(bits 0-1 of b35))/8 and
t1degc = (b33 + 256*(bits 2-3 of b35))/8, and each of the four lies in
0..127. -/
theorem getcal_reference_values (sys : Sys) (fd : Int) (st : St) (c : Chan)
    (b30 b31 b32 b33 b35 : Nat)
    (hfd : st.chans.find? (fun c => decide (c.fd = fd)) = some c)
    (h30 : sys.regs c.path 0x30 % 256 = b30)
    (h31 : sys.regs c.path 0x31 % 256 = b31)
    (h32 : sys.regs c.path 0x32 % 256 = b32)
    (h33 : sys.regs c.path 0x33 % 256 = b33)
    (h35 : sys.regs c.path 0x35 % 256 = b35) :
    (getcal sys fd st).cal.h0rh = ((b30 / 2 : Nat) : Int) ∧
    (getcal sys fd st).cal.h1rh = ((b31 / 2 : Nat) : Int) ∧
    (getcal sys fd st).cal.t0degc = (((b32 + 256 * (b35 % 4)) / 8 : Nat) : Int) ∧
    (getcal sys fd st).cal.t1degc = (((b33 + 256 * (b35 / 4 % 4)) / 8 : Nat) : Int) ∧
    (0 ≤ (getcal sys fd st).cal.h0rh ∧ (getcal sys fd st).cal.h0rh ≤ 127) ∧
    (0 ≤ (getcal sys fd st).cal.h1rh ∧ (getcal sys fd st).cal.h1rh ≤ 127) ∧
    (0 ≤ (getcal sys fd st).cal.t0degc ∧ (getcal sys fd st).cal.t0degc ≤ 127) ∧
    (0 ≤ (getcal sys fd st).cal.t1degc ∧ (getcal sys fd st).cal.t1degc ≤ 127) := by
  have l30 : b30 < 256 := h30 ▸ Nat.mod_lt _ (by norm_num)
  have l31 : b31 < 256 := h31 ▸ Nat.mod_lt _ (by norm_num)
  have l32 : b32 < 256 := h32 ▸ Nat.mod_lt _ (by norm_num)
  have l33 : b33 < 256 := h33 ▸ Nat.mod_lt _ (by norm_num)
  obtain ⟨e0, e1, e2, e3⟩ := getcal_refs sys fd st c b30 b31 b32 b33 b35 hfd h30 h31 h32 h33 h35
  refine ⟨e0, e1, e2, e3, ?_, ?_, ?_, ?_⟩
  · rw [e0]; omega
  · rw [e1]; omega
  · rw [e2]; omega
  · rw [e3]; omega

/-! ### Ranges of the calibration table -/

theorem sext_eq_spec (low high : Nat) (hl : low < 256) (hh : high < 256) :
    (if ((low ||| (high <<< 8) : Nat) : Int) > 32767
      then ((low ||| (high <<< 8) : Nat) : Int) - 65536
      else ((low ||| (high <<< 8) : Nat) : Int)) = specSignExt (low + 256 * high) ∧
    -32768 ≤ specSignExt (low + 256 * high) ∧ specSignExt (low + 256 * high) ≤ 32767 := by
  rw [byte2_or low high hl]
  unfold specSignExt
  refine ⟨?_, ?_, ?_⟩ <;> split_ifs <;> omega

/-- Every table `getcal` produces lies within these ranges. -/
theorem getcal_ranges (sys : Sys) (fd : Int) (st : St) (c : Chan)
    (hfd : st.chans.find? (fun c => decide (c.fd = fd)) = some c) :
    (0 ≤ (getcal sys fd st).cal.h0rh ∧ (getcal sys fd st).cal.h0rh ≤ 127) ∧
    (0 ≤ (getcal sys fd st).cal.h1rh ∧ (getcal sys fd st).cal.h1rh ≤ 127) ∧
    (0 ≤ (getcal sys fd st).cal.t0degc ∧ (getcal sys fd st).cal.t0degc ≤ 127) ∧
    (0 ≤ (getcal sys fd st).cal.t1degc ∧ (getcal sys fd st).cal.t1degc ≤ 127) ∧
    (-32768 ≤ (getcal sys fd st).cal.h0out ∧ (getcal sys fd st).cal.h0out ≤ 32767) ∧
    (-32768 ≤ (getcal sys fd st).cal.h1out ∧ (getcal sys fd st).cal.h1out ≤ 32767) ∧
    (-98304 ≤ (getcal sys fd st).cal.t0out ∧ (getcal sys fd st).cal.t0out ≤ 32767) ∧
    (0 ≤ (getcal sys fd st).cal.t1out ∧ (getcal sys fd st).cal.t1out ≤ 65535) := by
  have lt : ∀ a : Nat, sys.regs c.path a % 256 < 256 := fun a => Nat.mod_lt _ (by norm_num)
  obtain ⟨e0, e1, e2, e3⟩ := getcal_refs sys fd st c _ _ _ _ _ hfd rfl rfl rfl rfl rfl
  refine ⟨by rw [e0]; omega, by rw [e1]; omega, by rw [e2]; omega, by rw [e3]; omega, ?_⟩
  rw [getcal_cal sys fd st c hfd]
  simp only [byte2_or _ _ (lt _)]
  refine ⟨?_, ?_, ?_, ?_⟩ <;> constructor <;> omega

/-- C9 at a concrete device: registers 0x50, 0xA0, 0xA0, 0xF0 and 0x0B. -/
theorem getcal_reference_values_witness :
    (getcal sysCal 3 stHts).cal.h0rh = ((0x50 / 2 : Nat) : Int) ∧
    (getcal sysCal 3 stHts).cal.h1rh = ((0xA0 / 2 : Nat) : Int) ∧
    (getcal sysCal 3 stHts).cal.t0degc = (((0xA0 + 256 * (0x0B % 4)) / 8 : Nat) : Int) ∧
    (getcal sysCal 3 stHts).cal.t1degc = (((0xF0 + 256 * (0x0B / 4 % 4)) / 8 : Nat) : Int) ∧
    (0 ≤ (getcal sysCal 3 stHts).cal.h0rh ∧ (getcal sysCal 3 stHts).cal.h0rh ≤ 127) ∧
    (0 ≤ (getcal sysCal 3 stHts).cal.h1rh ∧ (getcal sysCal 3 stHts).cal.h1rh ≤ 127) ∧
    (0 ≤ (getcal sysCal 3 stHts).cal.t0degc ∧ (getcal sysCal 3 stHts).cal.t0degc ≤ 127) ∧
    (0 ≤ (getcal sysCal 3 stHts).cal.t1degc ∧ (getcal sysCal 3 stHts).cal.t1degc ≤ 127) :=
  getcal_reference_values sysCal 3 stHts chanHts 0x50 0xA0 0xA0 0xF0 0x0B
    (by decide) (by decide) (by decide) (by decide) (by decide) (by decide)

/-! ### Exactness of the interpolation at the reference points -/

theorem humidValue_eq (cal : CalTable) (low high : Nat) (hl : low < 256) (hh : high < 256) :
    humidValue cal low high =
      FloatVal.add (FloatVal.div
        (FloatVal.ofInt (wrap32 (wrap32 (specSignExt (low + 256 * high) - cal.h0out)
          * wrap32 (cal.h1rh - cal.h0rh))))
        (FloatVal.ofInt (wrap32 (cal.h1out - cal.h0out)))) (FloatVal.ofInt cal.h0rh) := by
  unfold humidValue
  simp only [(sext_eq_spec low high hl hh).1]

theorem temphValue_eq (cal : CalTable) (low high : Nat) (hl : low < 256) (hh : high < 256) :
    temphValue cal low high =
      FloatVal.add (FloatVal.div
        (FloatVal.ofInt (wrap32 (wrap32 (specSignExt (low + 256 * high) - cal.t0out)
          * wrap32 (cal.t1degc - cal.t0degc))))
        (FloatVal.ofInt (wrap32 (cal.t1out - cal.t0out)))) (FloatVal.ofInt cal.t0degc) := by
  unfold temphValue
  simp only [(sext_eq_spec low high hl hh).1]

/-- C6: for every calibration table `getcal` produces with out1 != out0, the
`float` computed by `readhumid` (from h0rh, h1rh, h0out, h1out) and by
`readtemph` (from t0degc, t1degc, t0out, t1out) for the bytes (low, high) is
exactly ref0 when the sign-extended reading of low | high << 8 equals out0,
and exactly ref1 when it equals out1. -/
theorem interpolation_exact_at_reference_points (sys : Sys) (fd : Int) (st : St) (c : Chan)
    (low high : Nat)
    (hfd : st.chans.find? (fun c => decide (c.fd = fd)) = some c)
    (hl : low < 256) (hh : high < 256) :
    ((getcal sys fd st).cal.h1out ≠ (getcal sys fd st).cal.h0out →
      (specSignExt (low + 256 * high) = (getcal sys fd st).cal.h0out →
        humidValue (getcal sys fd st).cal low high
          = FloatVal.fin ((getcal sys fd st).cal.h0rh : ℚ)) ∧
      (specSignExt (low + 256 * high) = (getcal sys fd st).cal.h1out →
        humidValue (getcal sys fd st).cal low high
          = FloatVal.fin ((getcal sys fd st).cal.h1rh : ℚ))) ∧
    ((getcal sys fd st).cal.t1out ≠ (getcal sys fd st).cal.t0out →
      (specSignExt (low + 256 * high) = (getcal sys fd st).cal.t0out →
        temphValue (getcal sys fd st).cal low high
          = FloatVal.fin ((getcal sys fd st).cal.t0degc : ℚ)) ∧
      (specSignExt (low + 256 * high) = (getcal sys fd st).cal.t1out →
        temphValue (getcal sys fd st).cal low high
          = FloatVal.fin ((getcal sys fd st).cal.t1degc : ℚ))) := by
  obtain ⟨h0rh, h1rh, t0degc, t1degc, h0out, h1out, t0out, t1out⟩ := getcal_ranges sys fd st c hfd
  have hraw := (sext_eq_spec low high hl hh).2
  constructor
  · intro hne
    rw [humidValue_eq _ low high hl hh]
    exact interp_exact _ _ _ _ _ hraw ⟨by omega, by omega⟩ ⟨by omega, by omega⟩ h0rh h1rh hne
  · intro hne
    rw [temphValue_eq _ low high hl hh]
    exact interp_exact _ _ _ _ _ hraw ⟨by omega, by omega⟩ ⟨by omega, by omega⟩ t0degc t1degc hne

/-- C6 at a concrete device: h0out = 0, h1out = 4096, t0out = 0, t1out = 512,
read at each of the four reference points. -/
theorem interpolation_exact_at_reference_points_witness :
    humidValue (getcal sysCal 3 stHts).cal 0x00 0x00
      = FloatVal.fin ((getcal sysCal 3 stHts).cal.h0rh : ℚ) ∧
    humidValue (getcal sysCal 3 stHts).cal 0x00 0x10
      = FloatVal.fin ((getcal sysCal 3 stHts).cal.h1rh : ℚ) ∧
    temphValue (getcal sysCal 3 stHts).cal 0x00 0x00
      = FloatVal.fin ((getcal sysCal 3 stHts).cal.t0degc : ℚ) ∧
    temphValue (getcal sysCal 3 stHts).cal 0x00 0x02
      = FloatVal.fin ((getcal sysCal 3 stHts).cal.t1degc : ℚ) :=
  ⟨((interpolation_exact_at_reference_points sysCal 3 stHts chanHts 0x00 0x00
      (by decide) (by decide) (by decide)).1 (by decide)).1 (by decide),
   ((interpolation_exact_at_reference_points sysCal 3 stHts chanHts 0x00 0x10
      (by decide) (by decide) (by decide)).1 (by decide)).2 (by decide),
   ((interpolation_exact_at_reference_points sysCal 3 stHts chanHts 0x00 0x00
      (by decide) (by decide) (by decide)).2 (by decide)).1 (by decide),
   ((interpolation_exact_at_reference_points sysCal 3 stHts chanHts 0x00 0x02
      (by decide) (by decide) (by decide)).2 (by decide)).2 (by decide)⟩

/-! ### Reads with a zero divisor -/

theorem div_zero_not_finite (x : FloatVal) :
    (FloatVal.div x (FloatVal.fin 0)).isFinite = false := by
  cases x with
  | fin a => by_cases h : a = 0 <;> simp [FloatVal.div, FloatVal.isFinite, h]
  | inf s => simp [FloatVal.div, FloatVal.isFinite]
  | nan => simp [FloatVal.div, FloatVal.isFinite]

theorem add_not_finite (x y : FloatVal) (hx : x.isFinite = false) :
    (FloatVal.add x y).isFinite = false := by
  cases x <;> cases y <;> simp_all [FloatVal.add, FloatVal.isFinite]
  split_ifs <;> rfl

theorem ofInt_zero : FloatVal.ofInt 0 = FloatVal.fin 0 := by
  simpa using ofInt_small 0 (by norm_num)

theorem wrap32_zero : wrap32 0 = 0 := by decide

theorem humidValue_not_finite (cal : CalTable) (low high : Nat) (h : cal.h1out = cal.h0out) :
    (humidValue cal low high).isFinite = false := by
  unfold humidValue
  simp only [h, sub_self, wrap32_zero, ofInt_zero]
  exact add_not_finite _ _ (div_zero_not_finite _)

theorem temphValue_not_finite (cal : CalTable) (low high : Nat) (h : cal.t1out = cal.t0out) :
    (temphValue cal low high).isFinite = false := by
  unfold temphValue
  simp only [h, sub_self, wrap32_zero, ofInt_zero]
  exact add_not_finite _ _ (div_zero_not_finite _)

theorem readhumid_result (sys : Sys) (r : Req) (st : St)
    (hopen : 0 ≤ sys.fdOf "/dev/i2c1/i2c.5f.data") :
    (readhumid sys r st).1 = none ∧
    (readhumid sys r st).2.resp = some (sys.fmt1f (humidValue st.cal
      (sys.regs "/dev/i2c1/i2c.5f.data" 0x28 % 256)
      (sys.regs "/dev/i2c1/i2c.5f.data" 0x29 % 256)) ++ "\n") := by
  have hnot : ¬ sys.fdOf "/dev/i2c1/i2c.5f.data" < 0 := not_lt.mpr hopen
  constructor
  · simp [readhumid, openDev, hnot]
  · simp [readhumid, openDev, pwrite, pread, close, readstr, setReg, hnot]

theorem readtemph_result (sys : Sys) (r : Req) (st : St)
    (hopen : 0 ≤ sys.fdOf "/dev/i2c1/i2c.5f.data") :
    (readtemph sys r st).1 = none ∧
    (readtemph sys r st).2.resp = some (sys.fmt1f (temphValue st.cal
      (sys.regs "/dev/i2c1/i2c.5f.data" 0x2A % 256)
      (sys.regs "/dev/i2c1/i2c.5f.data" 0x2B % 256)) ++ "\n") := by
  have hnot : ¬ sys.fdOf "/dev/i2c1/i2c.5f.data" < 0 := not_lt.mpr hopen
  constructor
  · simp [readtemph, openDev, hnot]
  · simp [readtemph, openDev, pwrite, pread, close, readstr, setReg, hnot]

/-- C3, against the claim: with the all-zero table (h1out = h0out and
t1out = t0out) and a device that opens, `readhumid` and `readtemph` return nil,
not an error, and hand a text to `readstr`; the `float` they format is the
NaN of 0/0. -/
theorem zero_table_reads_succeed :
    st0.cal.h1out = st0.cal.h0out ∧ st0.cal.t1out = st0.cal.t0out ∧
    (readhumid (sysWith "/dev/i2c1/i2c.5f.data" []) req0 st0).1 = none ∧
    (readhumid (sysWith "/dev/i2c1/i2c.5f.data" []) req0 st0).2.resp.isSome = true ∧
    (readtemph (sysWith "/dev/i2c1/i2c.5f.data" []) req0 st0).1 = none ∧
    (readtemph (sysWith "/dev/i2c1/i2c.5f.data" []) req0 st0).2.resp.isSome = true ∧
    humidValue st0.cal 0 0 = FloatVal.nan ∧ temphValue st0.cal 0 0 = FloatVal.nan := by
  refine ⟨by decide, by decide, by decide, by decide, by decide, by decide, ?_, ?_⟩
  · simp [humidValue, st0, St.init, CalTable.zero, wrap32_zero, ofInt_zero, FloatVal.div,
      FloatVal.add]
  · simp [temphValue, st0, St.init, CalTable.zero, wrap32_zero, ofInt_zero, FloatVal.div,
      FloatVal.add]

/-- C3, amended: `readhumid` and `readtemph` make no test of the calibration
table.  Whenever the open of the device succeeds and out1 == out0 for the
quantity read (h1out == h0out, t1out == t0out; the all-zero table included),
the handler returns nil and hands `readstr` the text of `%.1f` for a `float`
that is not finite (a NaN or an infinity), followed by a newline. -/
theorem zero_divisor_read_is_not_an_error (sys : Sys) (r : Req) (st : St)
    (hopen : 0 ≤ sys.fdOf "/dev/i2c1/i2c.5f.data") :
    (st.cal.h1out = st.cal.h0out →
      (readhumid sys r st).1 = none ∧
      ∃ v : FloatVal, v.isFinite = false ∧
        (readhumid sys r st).2.resp = some (sys.fmt1f v ++ "\n")) ∧
    (st.cal.t1out = st.cal.t0out →
      (readtemph sys r st).1 = none ∧
      ∃ v : FloatVal, v.isFinite = false ∧
        (readtemph sys r st).2.resp = some (sys.fmt1f v ++ "\n")) := by
  constructor
  · intro h
    exact ⟨(readhumid_result sys r st hopen).1, _, humidValue_not_finite _ _ _ h,
      (readhumid_result sys r st hopen).2⟩
  · intro h
    exact ⟨(readtemph_result sys r st hopen).1, _, temphValue_not_finite _ _ _ h,
      (readtemph_result sys r st hopen).2⟩

/-- C3, amended, at the all-zero table. -/
theorem zero_divisor_read_is_not_an_error_witness :
    ((readhumid (sysWith "/dev/i2c1/i2c.5f.data" []) req0 st0).1 = none ∧
      ∃ v : FloatVal, v.isFinite = false ∧
        (readhumid (sysWith "/dev/i2c1/i2c.5f.data" []) req0 st0).2.resp
          = some ((sysWith "/dev/i2c1/i2c.5f.data" []).fmt1f v ++ "\n")) ∧
    ((readtemph (sysWith "/dev/i2c1/i2c.5f.data" []) req0 st0).1 = none ∧
      ∃ v : FloatVal, v.isFinite = false ∧
        (readtemph (sysWith "/dev/i2c1/i2c.5f.data" []) req0 st0).2.resp
          = some ((sysWith "/dev/i2c1/i2c.5f.data" []).fmt1f v ++ "\n")) :=
  ⟨(zero_divisor_read_is_not_an_error (sysWith "/dev/i2c1/i2c.5f.data" []) req0 st0
      (by decide)).1 (by decide),
   (zero_divisor_read_is_not_an_error (sysWith "/dev/i2c1/i2c.5f.data" []) req0 st0
      (by decide)).2 (by decide)⟩

/-! ### Writes to the LED matrix -/

theorem mem_files_led (f : Devfile) (hf : f ∈ files) (hn : f.name = "led") :
    f = ⟨"led", none, some writeled, DMEXCL ||| 0o222⟩ := by
  simp only [files, List.mem_cons, List.mem_singleton, List.not_mem_nil, or_false] at hf
  rcases hf with rfl | rfl | rfl | rfl | rfl | rfl | rfl | rfl
  all_goals first | rfl | exact absurd hn (by decide)

set_option maxRecDepth 8000 in
/-- C4, against the claim: a write of 10 bytes to `led`, on a device that
opens, is answered with `respond(r, nil)` and not with an error, after `open`,
a `pwrite` of 192 bytes (the 10 of the payload and the 182 that follow them
in memory) and `close` on the register transport. -/
theorem short_led_write_is_written :
    req10.count = 10 ∧
    (files[7]?).map (fun f => f.name) = some "led" ∧
    (files[7]?).map (fun f => (rwrite (sysWith "" []) f req10 st0).err) = some (some none) ∧
    (files[7]?).map (fun f => (rwrite (sysWith "" []) f req10 st0).st.trace)
      = some [Ev.open "/dev/i2c1/i2c.46.data",
          Ev.pwrite 3 (List.replicate 10 0xFF ++ List.replicate 182 0) 0,
          Ev.close 3] := by
  decide

/-- C4, amended: for every write request to the `led` node, whatever the
length of its payload, `rwrite` sets `ofcall.count` to `ifcall.count` and
`writeled` opens the device; when the open succeeds it makes one `pwrite` of
192 bytes at offset 0, of which the first `ifcall.count` (at most 192) are
the payload, closes the channel, and the response is success; when the open
fails the response is the error "open I²C fail" with no other call on the
register transport.  There is no test of the payload length and no
PayloadSizeMismatch error. -/
theorem led_write_any_length (sys : Sys) (r : Req) (st : St) (f : Devfile)
    (hf : f ∈ files) (hn : f.name = "led") :
    (rwrite sys f r st).err
      = some (if sys.fdOf "/dev/i2c1/i2c.46.data" < 0 then some "open I²C fail" else none) ∧
    (rwrite sys f r st).st.ofcount = r.count ∧
    (sys.fdOf "/dev/i2c1/i2c.46.data" < 0 →
      (rwrite sys f r st).st.trace = st.trace ++ [Ev.open "/dev/i2c1/i2c.46.data"]) ∧
    (0 ≤ sys.fdOf "/dev/i2c1/i2c.46.data" →
      ∃ buf : List Nat,
        (rwrite sys f r st).st.trace = st.trace ++
          [Ev.open "/dev/i2c1/i2c.46.data",
           Ev.pwrite (sys.fdOf "/dev/i2c1/i2c.46.data") buf 0,
           Ev.close (sys.fdOf "/dev/i2c1/i2c.46.data")] ∧
        buf.length = 192 ∧
        ∀ i, i < r.count → i < 192 → buf[i]? = some (r.data i)) := by
  rw [mem_files_led f hf hn]
  refine ⟨?_, ?_, ?_, ?_⟩
  · by_cases h : sys.fdOf "/dev/i2c1/i2c.46.data" < 0 <;>
      simp [rwrite, writeled, openDev, Outcome.err, h]
  · by_cases h : sys.fdOf "/dev/i2c1/i2c.46.data" < 0 <;>
      simp [rwrite, writeled, openDev, pwrite, close, Outcome.st, h]
  · intro h
    simp [rwrite, writeled, openDev, Outcome.st, h]
  · intro h
    refine ⟨(List.range 192).map r.data, ?_, by simp, ?_⟩
    · simp [rwrite, writeled, openDev, pwrite, close, Outcome.st, not_lt.mpr h]
    · intro i _ hi
      simp [List.getElem?_map, List.getElem?_range, hi]

set_option maxRecDepth 8000 in
/-- C4, amended, at a write of 10 bytes on a device that opens. -/
theorem led_write_any_length_witness :
    (rwrite (sysWith "" []) ⟨"led", none, some writeled, DMEXCL ||| 0o222⟩ req10 st0).err
      = some (if (sysWith "" []).fdOf "/dev/i2c1/i2c.46.data" < 0
          then some "open I²C fail" else none) ∧
    (rwrite (sysWith "" []) ⟨"led", none, some writeled, DMEXCL ||| 0o222⟩ req10 st0).st.ofcount
      = req10.count ∧
    ∃ buf : List Nat,
      (rwrite (sysWith "" []) ⟨"led", none, some writeled, DMEXCL ||| 0o222⟩ req10 st0).st.trace
        = st0.trace ++
          [Ev.open "/dev/i2c1/i2c.46.data",
           Ev.pwrite ((sysWith "" []).fdOf "/dev/i2c1/i2c.46.data") buf 0,
           Ev.close ((sysWith "" []).fdOf "/dev/i2c1/i2c.46.data")] ∧
      buf.length = 192 ∧
      ∀ i, i < req10.count → i < 192 → buf[i]? = some (req10.data i) :=
  ⟨(led_write_any_length (sysWith "" []) req10 st0 ⟨"led", none, some writeled, DMEXCL ||| 0o222⟩
      (by simp [files]) rfl).1,
   (led_write_any_length (sysWith "" []) req10 st0 ⟨"led", none, some writeled, DMEXCL ||| 0o222⟩
      (by simp [files]) rfl).2.1,
   (led_write_any_length (sysWith "" []) req10 st0 ⟨"led", none, some writeled, DMEXCL ||| 0o222⟩
      (by simp [files]) rfl).2.2.2 (by decide)⟩

/-! ### Dispatch -/

/-- C5, against the claim: `rwrite` on the entry of `tempp` and `rread` on the
entry of `led` never reach `respond`: the call goes through the nil handler
of the entry, and no error is answered. -/
theorem dispatch_calls_nil_handler :
    (files[0]?).map (fun f => f.name) = some "tempp" ∧
    (files[0]?).map (fun f => f.rwrite.isNone) = some true ∧
    (files[0]?).map (fun f => (rwrite (sysWith "" []) f req0 st0).err) = some none ∧
    (files[7]?).map (fun f => f.name) = some "led" ∧
    (files[7]?).map (fun f => f.rread.isNone) = some true ∧
    (files[7]?).map (fun f => (rread (sysWith "" []) f req0 st0).err) = some none := by
  decide

/-- C5, amended: `rread` and `rwrite` make no test of the direction and have
no UnsupportedOperation error.  Every entry of `files[]` has exactly one
handler and the mode bits of that direction (`rread` with 0444, `rwrite` with
0222).  A request in the direction of the handler is answered with
`respond(r, handler(r))`; in the other direction the callback calls through
the nil pointer and `respond` is not reached. -/
theorem dispatch_without_direction_test (sys : Sys) (r : Req) (st : St) (f : Devfile)
    (hf : f ∈ files) :
    ((f.rread.isSome = true ∧ f.rwrite = none ∧ f.mode = DMEXCL ||| 0o444) ∨
     (f.rread = none ∧ f.rwrite.isSome = true ∧ f.mode = DMEXCL ||| 0o222)) ∧
    (∀ h, f.rread = some h →
      rread sys f r st = Outcome.responded (h sys r { st with ofcount := 0 }).1
        (h sys r { st with ofcount := 0 }).2) ∧
    (∀ h, f.rwrite = some h →
      rwrite sys f r st = Outcome.responded (h sys r { st with ofcount := r.count }).1
        (h sys r { st with ofcount := r.count }).2) ∧
    (f.rread = none → rread sys f r st = Outcome.nilcall { st with ofcount := 0 }) ∧
    (f.rwrite = none → rwrite sys f r st = Outcome.nilcall { st with ofcount := r.count }) := by
  refine ⟨?_, ?_, ?_, ?_, ?_⟩
  · simp only [files, List.mem_cons, List.mem_singleton, List.not_mem_nil, or_false] at hf
    rcases hf with rfl | rfl | rfl | rfl | rfl | rfl | rfl | rfl <;> simp
  · intro h hh; simp [rread, hh]
  · intro h hh; simp [rwrite, hh]
  · intro hh; simp [rread, hh]
  · intro hh; simp [rwrite, hh]

/-- C5, amended, at the entry of `tempp`: a read is answered by `readtempp`,
a write never reaches `respond`. -/
theorem dispatch_without_direction_test_witness :
    rread (sysWith "" []) ⟨"tempp", some readtempp, none, DMEXCL ||| 0o444⟩ req0 st0
      = Outcome.responded (readtempp (sysWith "" []) req0 { st0 with ofcount := 0 }).1
          (readtempp (sysWith "" []) req0 { st0 with ofcount := 0 }).2 ∧
    rwrite (sysWith "" []) ⟨"tempp", some readtempp, none, DMEXCL ||| 0o444⟩ req0 st0
      = Outcome.nilcall { st0 with ofcount := req0.count } :=
  ⟨(dispatch_without_direction_test (sysWith "" []) req0 st0
      ⟨"tempp", some readtempp, none, DMEXCL ||| 0o444⟩ (by simp [files])).2.1 readtempp rfl,
   (dispatch_without_direction_test (sysWith "" []) req0 st0
      ⟨"tempp", some readtempp, none, DMEXCL ||| 0o444⟩ (by simp [files])).2.2.2.2 rfl⟩

/-! ### Channels closed by the other operations -/

theorem close_chans (fd : Int) (st : St) :
    (close fd st).chans = st.chans.eraseP (fun c => decide (c.fd = fd)) := rfl

theorem sleep_chans (ms : Nat) (st : St) : (sleep ms st).chans = st.chans := rfl

theorem readstr_chans (r : Req) (out : String) (st : St) :
    (readstr r out st).chans = st.chans := rfl

theorem getcal_chans (sys : Sys) (fd : Int) (st : St) :
    (getcal sys fd st).chans = setReg fd 0x3F (setReg fd 0x3E (setReg fd 0x3D (setReg fd 0x3C
      (setReg fd 0x3B (setReg fd 0x3A (setReg fd 0x37 (setReg fd 0x36 (setReg fd 0x33
      (setReg fd 0x32 (setReg fd 0x35 (setReg fd 0x31 (setReg fd 0x30 st.chans)))))))))))) := by
  simp only [getcal, dprint_chans, pwrite_chans, pread_chans]

theorem initlsp25h_chans (sys : Sys) (on_ : Int) (st : St) :
    (initlsp25h sys on_ st).2.chans = st.chans := by
  by_cases h : sys.fdOf "/dev/i2c1/i2c.5c.data" < 0 <;> by_cases ho : on_ = 0 <;>
    simp [initlsp25h, openDev, close_chans, sleep_chans, dprint_chans, pwrite_chans, setReg, h, ho]

theorem inithts221_chans (sys : Sys) (on_ : Int) (st : St) :
    (inithts221 sys on_ st).2.chans = st.chans := by
  by_cases h : sys.fdOf "/dev/i2c1/i2c.5f.data" < 0 <;> by_cases ho : on_ = 0 <;>
    simp [inithts221, openDev, close_chans, getcal_chans, dprint_chans, pwrite_chans, setReg, h, ho]

theorem initlsm9mag_chans (sys : Sys) (on_ : Int) (st : St) :
    (initlsm9mag sys on_ st).2.chans = st.chans := by
  by_cases h : sys.fdOf "/dev/i2c1/i2c.1c.data" < 0 <;> by_cases ho : on_ = 0 <;>
    simp [initlsm9mag, openDev, close_chans, dprint_chans, pwrite_chans, setReg, h, ho]

theorem initlsm9gyac_chans (sys : Sys) (on_ : Int) (st : St) :
    (initlsm9gyac sys on_ st).2.chans = st.chans := by
  by_cases h : sys.fdOf "/dev/i2c1/i2c.6a.data" < 0 <;> by_cases ho : on_ = 0 <;>
    simp [initlsm9gyac, openDev, close_chans, dprint_chans, pwrite_chans, setReg, h, ho]

theorem readtempp_chans (sys : Sys) (r : Req) (st : St) :
    (readtempp sys r st).2.chans = st.chans := by
  by_cases h : sys.fdOf "/dev/i2c1/i2c.5c.data" < 0 <;>
    simp [readtempp, openDev, close_chans, readstr_chans, pread_chans, pwrite_chans, setReg, h]

theorem readpress_chans (sys : Sys) (r : Req) (st : St) :
    (readpress sys r st).2.chans = st.chans := by
  by_cases h : sys.fdOf "/dev/i2c1/i2c.5c.data" < 0 <;>
    simp [readpress, openDev, close_chans, readstr_chans, pread_chans, pwrite_chans, setReg, h]

theorem readtemph_chans (sys : Sys) (r : Req) (st : St) :
    (readtemph sys r st).2.chans = st.chans := by
  by_cases h : sys.fdOf "/dev/i2c1/i2c.5f.data" < 0 <;>
    simp [readtemph, openDev, close_chans, readstr_chans, pread_chans, pwrite_chans, setReg, h]

theorem readhumid_chans (sys : Sys) (r : Req) (st : St) :
    (readhumid sys r st).2.chans = st.chans := by
  by_cases h : sys.fdOf "/dev/i2c1/i2c.5f.data" < 0 <;>
    simp [readhumid, openDev, close_chans, readstr_chans, pread_chans, pwrite_chans, setReg, h]

theorem readaccel_chans (sys : Sys) (r : Req) (st : St) :
    (readaccel sys r st).2.chans = st.chans := by
  by_cases h : sys.fdOf "/dev/i2c1/i2c.6a.data" < 0 <;>
    simp [readaccel, openDev, close_chans, readstr_chans, pread_chans, pwrite_chans, setReg, h]

theorem readgyro_chans (sys : Sys) (r : Req) (st : St) :
    (readgyro sys r st).2.chans = st.chans := by
  by_cases h : sys.fdOf "/dev/i2c1/i2c.6a.data" < 0 <;>
    simp [readgyro, openDev, close_chans, readstr_chans, pread_chans, pwrite_chans, setReg, h]

theorem readmag_chans (sys : Sys) (r : Req) (st : St) :
    (readmag sys r st).2.chans = st.chans := by
  by_cases h : sys.fdOf "/dev/i2c1/i2c.1c.data" < 0 <;>
    simp [readmag, openDev, close_chans, readstr_chans, pread_chans, pwrite_chans, setReg, h]

theorem writeled_chans (sys : Sys) (r : Req) (st : St) :
    (writeled sys r st).2.chans = st.chans := by
  by_cases h : sys.fdOf "/dev/i2c1/i2c.46.data" < 0
  · simp [writeled, openDev, h]
  · simp only [writeled, openDev, close_chans, pwrite, h, if_false]
    split <;> simp [setReg]

/-- The power-up and power-down of the four sensors, the seven read handlers
and `writeled` return with the channels that were open when they were called:
what they opened they closed. -/
theorem other_operations_close (sys : Sys) (r : Req) (on_ : Int) (st : St) :
    (initlsp25h sys on_ st).2.chans = st.chans ∧
    (inithts221 sys on_ st).2.chans = st.chans ∧
    (initlsm9mag sys on_ st).2.chans = st.chans ∧
    (initlsm9gyac sys on_ st).2.chans = st.chans ∧
    (readtempp sys r st).2.chans = st.chans ∧
    (readpress sys r st).2.chans = st.chans ∧
    (readtemph sys r st).2.chans = st.chans ∧
    (readhumid sys r st).2.chans = st.chans ∧
    (readaccel sys r st).2.chans = st.chans ∧
    (readgyro sys r st).2.chans = st.chans ∧
    (readmag sys r st).2.chans = st.chans ∧
    (writeled sys r st).2.chans = st.chans :=
  ⟨initlsp25h_chans sys on_ st, inithts221_chans sys on_ st, initlsm9mag_chans sys on_ st,
   initlsm9gyac_chans sys on_ st, readtempp_chans sys r st, readpress_chans sys r st,
   readtemph_chans sys r st, readhumid_chans sys r st, readaccel_chans sys r st,
   readgyro_chans sys r st, readmag_chans sys r st, writeled_chans sys r st⟩

/-! ### What the vector handlers answer for every reading -/

theorem find_cons_self (fd : Int) (p : String) (a : Nat) (cs : List Chan) :
    (({ fd := fd, path := p, reg := a } : Chan) :: cs).find? (fun c => decide (c.fd = fd))
      = some { fd := fd, path := p, reg := a } := by
  simp

theorem readstr_resp (r : Req) (out : String) (st : St) :
    (readstr r out st).resp = some out := rfl

/-- The test `o > 32757` against the rule of the specification: the two
agree but for the ten raw values 32758..32767. -/
theorem axis_32757 (low high : Nat) (hl : low < 256) :
    (if ((low ||| (high <<< 8) : Nat) : Int) > 32757
      then ((low ||| (high <<< 8) : Nat) : Int) - 65536
      else ((low ||| (high <<< 8) : Nat) : Int))
    = specSignExt (low + 256 * high)
      - (if 32758 ≤ low + 256 * high ∧ low + 256 * high ≤ 32767 then 65536 else 0) := by
  rw [byte2_or low high hl]
  unfold specSignExt
  split_ifs <;> omega

/-- The test `o > 32767` is the rule of the specification. -/
theorem axis_32767 (low high : Nat) (hl : low < 256) :
    (if ((low ||| (high <<< 8) : Nat) : Int) > 32767
      then ((low ||| (high <<< 8) : Nat) : Int) - 65536
      else ((low ||| (high <<< 8) : Nat) : Int))
    = specSignExt (low + 256 * high) := by
  rw [byte2_or low high hl]
  unfold specSignExt
  split_ifs <;> omega

/-- Every response of `readaccel`: each axis is the sign-extended value of its
pair, less 65536 when the pair lies in 32758..32767. -/
theorem readaccel_result (sys : Sys) (r : Req) (st : St)
    (hopen : 0 ≤ sys.fdOf "/dev/i2c1/i2c.6a.data") (b : Nat → Nat)
    (hb : ∀ a, b a = sys.regs "/dev/i2c1/i2c.6a.data" a % 256) :
    (readaccel sys r st).1 = none ∧
    (readaccel sys r st).2.resp = some (
      fmtD (specSignExt (b 0x28 + 256 * b 0x29)
        - (if 32758 ≤ b 0x28 + 256 * b 0x29 ∧ b 0x28 + 256 * b 0x29 ≤ 32767 then 65536 else 0))
      ++ " " ++
      fmtD (specSignExt (b 0x2A + 256 * b 0x2B)
        - (if 32758 ≤ b 0x2A + 256 * b 0x2B ∧ b 0x2A + 256 * b 0x2B ≤ 32767 then 65536 else 0))
      ++ " " ++
      fmtD (specSignExt (b 0x2C + 256 * b 0x2D)
        - (if 32758 ≤ b 0x2C + 256 * b 0x2D ∧ b 0x2C + 256 * b 0x2D ≤ 32767 then 65536 else 0))
      ++ "\n") := by
  have hnot : ¬ sys.fdOf "/dev/i2c1/i2c.6a.data" < 0 := not_lt.mpr hopen
  have lt : ∀ a, b a < 256 := fun a => hb a ▸ Nat.mod_lt _ (by norm_num)
  constructor
  · simp [readaccel, openDev, hnot]
  · simp only [readaccel, openDev, hnot, if_false, readstr_resp, pread_val, pread_chans,
      pwrite_chans, find_setReg, find_cons_self, Option.map, ← hb, axis_32757 _ _ (lt _)]

/-- Every response of `readgyro`: each axis is the sign-extended value of its
pair, less 65536 when the pair lies in 32758..32767. -/
theorem readgyro_result (sys : Sys) (r : Req) (st : St)
    (hopen : 0 ≤ sys.fdOf "/dev/i2c1/i2c.6a.data") (b : Nat → Nat)
    (hb : ∀ a, b a = sys.regs "/dev/i2c1/i2c.6a.data" a % 256) :
    (readgyro sys r st).1 = none ∧
    (readgyro sys r st).2.resp = some (
      fmtD (specSignExt (b 0x18 + 256 * b 0x19)
        - (if 32758 ≤ b 0x18 + 256 * b 0x19 ∧ b 0x18 + 256 * b 0x19 ≤ 32767 then 65536 else 0))
      ++ " " ++
      fmtD (specSignExt (b 0x1A + 256 * b 0x1B)
        - (if 32758 ≤ b 0x1A + 256 * b 0x1B ∧ b 0x1A + 256 * b 0x1B ≤ 32767 then 65536 else 0))
      ++ " " ++
      fmtD (specSignExt (b 0x1C + 256 * b 0x1D)
        - (if 32758 ≤ b 0x1C + 256 * b 0x1D ∧ b 0x1C + 256 * b 0x1D ≤ 32767 then 65536 else 0))
      ++ "\n") := by
  have hnot : ¬ sys.fdOf "/dev/i2c1/i2c.6a.data" < 0 := not_lt.mpr hopen
  have lt : ∀ a, b a < 256 := fun a => hb a ▸ Nat.mod_lt _ (by norm_num)
  constructor
  · simp [readgyro, openDev, hnot]
  · simp only [readgyro, openDev, hnot, if_false, readstr_resp, pread_val, pread_chans,
      pwrite_chans, find_setReg, find_cons_self, Option.map, ← hb, axis_32757 _ _ (lt _)]

/-- Every response of `readmag`: each axis is the sign-extended value of its
pair. -/
theorem readmag_result (sys : Sys) (r : Req) (st : St)
    (hopen : 0 ≤ sys.fdOf "/dev/i2c1/i2c.1c.data") (b : Nat → Nat)
    (hb : ∀ a, b a = sys.regs "/dev/i2c1/i2c.1c.data" a % 256) :
    (readmag sys r st).1 = none ∧
    (readmag sys r st).2.resp = some (
      fmtD (specSignExt (b 0x28 + 256 * b 0x29))
      ++ " " ++
      fmtD (specSignExt (b 0x2A + 256 * b 0x2B))
      ++ " " ++
      fmtD (specSignExt (b 0x2C + 256 * b 0x2D))
      ++ "\n") := by
  have hnot : ¬ sys.fdOf "/dev/i2c1/i2c.1c.data" < 0 := not_lt.mpr hopen
  have lt : ∀ a, b a < 256 := fun a => hb a ▸ Nat.mod_lt _ (by norm_num)
  constructor
  · simp [readmag, openDev, hnot]
  · simp only [readmag, openDev, hnot, if_false, readstr_resp, pread_val, pread_chans,
      pwrite_chans, find_setReg, find_cons_self, Option.map, ← hb, axis_32767 _ _ (lt _)]

/-! ### What `readtempp` answers for every reading -/

theorem fmtD_digit (d : Int) (h0 : 0 ≤ d) (h9 : d ≤ 9) : (fmtD d).length = 1 := by
  interval_cases d <;> rfl

/-- Every response of `readtempp`, with t = 425 + raw/48: the text of t/10, a
point, the text of t%10 and a newline, with the truncating division of C.
From t = 0 on, that is for every raw value from -20447 on, t%10 is one digit
0..9 and the text denotes t/10 degrees. -/
theorem readtempp_result (sys : Sys) (r : Req) (st : St) (low high : Nat)
    (hopen : 0 ≤ sys.fdOf "/dev/i2c1/i2c.5c.data")
    (hlow : sys.regs "/dev/i2c1/i2c.5c.data" 0x2B % 256 = low)
    (hhigh : sys.regs "/dev/i2c1/i2c.5c.data" 0x2C % 256 = high) :
    (readtempp sys r st).1 = none ∧
    (readtempp sys r st).2.resp = some (
      fmtD (Int.tdiv (425 + Int.tdiv (specSignExt (low + 256 * high)) 48) 10) ++ "." ++
      fmtD (Int.tmod (425 + Int.tdiv (specSignExt (low + 256 * high)) 48) 10) ++ "\n") ∧
    (-20447 ≤ specSignExt (low + 256 * high) →
      0 ≤ Int.tmod (425 + Int.tdiv (specSignExt (low + 256 * high)) 48) 10 ∧
      Int.tmod (425 + Int.tdiv (specSignExt (low + 256 * high)) 48) 10 ≤ 9 ∧
      (fmtD (Int.tmod (425 + Int.tdiv (specSignExt (low + 256 * high)) 48) 10)).length = 1 ∧
      10 * Int.tdiv (425 + Int.tdiv (specSignExt (low + 256 * high)) 48) 10
        + Int.tmod (425 + Int.tdiv (specSignExt (low + 256 * high)) 48) 10
        = 425 + Int.tdiv (specSignExt (low + 256 * high)) 48) := by
  have hnot : ¬ sys.fdOf "/dev/i2c1/i2c.5c.data" < 0 := not_lt.mpr hopen
  have bl : low < 256 := hlow ▸ Nat.mod_lt _ (by norm_num)
  refine ⟨?_, ?_, ?_⟩
  · simp [readtempp, openDev, hnot]
  · simp only [readtempp, openDev, hnot, if_false, readstr_resp, pread_val, pread_chans,
      pwrite_chans, find_setReg, find_cons_self, Option.map, hlow, hhigh, axis_32767 _ _ bl]
  · intro hraw
    have ht : 0 ≤ 425 + Int.tdiv (specSignExt (low + 256 * high)) 48 := by
      by_cases hs : 0 ≤ specSignExt (low + 256 * high)
      · rw [Int.tdiv_eq_ediv hs (by norm_num)]; omega
      · have hn : Int.tdiv (specSignExt (low + 256 * high)) 48
            = -((-specSignExt (low + 256 * high)) / 48) := by
          rw [← Int.tdiv_eq_ediv (by omega) (by norm_num), Int.neg_tdiv, neg_neg]
        rw [hn]; omega
    have h0 : 0 ≤ Int.tmod (425 + Int.tdiv (specSignExt (low + 256 * high)) 48) 10 :=
      Int.tmod_nonneg _ ht
    have h9 : Int.tmod (425 + Int.tdiv (specSignExt (low + 256 * high)) 48) 10 < 10 :=
      Int.tmod_lt_of_pos _ (by norm_num)
    exact ⟨h0, by omega, fmtD_digit _ h0 (by omega), Int.tdiv_add_tmod _ _⟩

/-! ### The four raw-output points of the table, for every device -/

/-- Every table `getcal` produces: `h0out` and `h1out` are the sign-extended
values of their pairs; `t1out` is the value of its pair with no sign
extension; `t0out` is the sign-extended value of its pair, less 65536 when the
pair of `t1out` is 32768 or more. -/
theorem getcal_outs (sys : Sys) (fd : Int) (st : St) (c : Chan) (b : Nat → Nat)
    (hfd : st.chans.find? (fun c => decide (c.fd = fd)) = some c)
    (hb : ∀ a, b a = sys.regs c.path a % 256) :
    (getcal sys fd st).cal.h0out = specSignExt (b 0x36 + 256 * b 0x37) ∧
    (getcal sys fd st).cal.h1out = specSignExt (b 0x3A + 256 * b 0x3B) ∧
    (getcal sys fd st).cal.t0out = specSignExt (b 0x3C + 256 * b 0x3D)
      - (if 32768 ≤ b 0x3E + 256 * b 0x3F then 65536 else 0) ∧
    (getcal sys fd st).cal.t1out = ((b 0x3E + 256 * b 0x3F : Nat) : Int) := by
  have lt : ∀ a, b a < 256 := fun a => hb a ▸ Nat.mod_lt _ (by norm_num)
  rw [getcal_cal sys fd st c hfd]
  simp only [← hb, byte2_or _ _ (lt _)]
  unfold specSignExt
  refine ⟨?_, ?_, ?_, trivial⟩ <;> split_ifs <;> omega

/-! ### A failed open -/

/-- When the open fails, every operation returns its error string after the
`open` alone (`inithts221` after its diagnostic and the `open`): no register
is read or written. -/
theorem open_failure_no_register_access (sys : Sys) (r : Req) (on_ : Int) (st : St) :
    (sys.fdOf "/dev/i2c1/i2c.5c.data" < 0 →
      initlsp25h sys on_ st = (some "open lsp25h fail",
        { st with trace := st.trace ++ [Ev.open "/dev/i2c1/i2c.5c.data"] }) ∧
      readtempp sys r st = (some "open I²C fail",
        { st with trace := st.trace ++ [Ev.open "/dev/i2c1/i2c.5c.data"] }) ∧
      readpress sys r st = (some "open I²C fail",
        { st with trace := st.trace ++ [Ev.open "/dev/i2c1/i2c.5c.data"] })) ∧
    (sys.fdOf "/dev/i2c1/i2c.5f.data" < 0 →
      inithts221 sys on_ st = (some "open hts221 fail",
        { st with trace := (dprint "init hts221..." st).trace
          ++ [Ev.open "/dev/i2c1/i2c.5f.data"] }) ∧
      readtemph sys r st = (some "open I²C fail",
        { st with trace := st.trace ++ [Ev.open "/dev/i2c1/i2c.5f.data"] }) ∧
      readhumid sys r st = (some "open I²C fail",
        { st with trace := st.trace ++ [Ev.open "/dev/i2c1/i2c.5f.data"] })) ∧
    (sys.fdOf "/dev/i2c1/i2c.1c.data" < 0 →
      initlsm9mag sys on_ st = (some "open lsm9mag fail",
        { st with trace := st.trace ++ [Ev.open "/dev/i2c1/i2c.1c.data"] }) ∧
      readmag sys r st = (some "open I²C fail",
        { st with trace := st.trace ++ [Ev.open "/dev/i2c1/i2c.1c.data"] })) ∧
    (sys.fdOf "/dev/i2c1/i2c.6a.data" < 0 →
      initlsm9gyac sys on_ st = (some "open lsm9gyac fail",
        { st with trace := st.trace ++ [Ev.open "/dev/i2c1/i2c.6a.data"] }) ∧
      readaccel sys r st = (some "open I²C fail",
        { st with trace := st.trace ++ [Ev.open "/dev/i2c1/i2c.6a.data"] }) ∧
      readgyro sys r st = (some "open I²C fail",
        { st with trace := st.trace ++ [Ev.open "/dev/i2c1/i2c.6a.data"] })) ∧
    (sys.fdOf "/dev/i2c1/i2c.46.data" < 0 →
      initled sys on_ st = (some "open led fail",
        { st with trace := st.trace ++ [Ev.open "/dev/i2c1/i2c.46.data"] }) ∧
      writeled sys r st = (some "open I²C fail",
        { st with trace := st.trace ++ [Ev.open "/dev/i2c1/i2c.46.data"] })) := by
  refine ⟨fun h => ⟨?_, ?_, ?_⟩, fun h => ⟨?_, ?_, ?_⟩, fun h => ⟨?_, ?_⟩,
    fun h => ⟨?_, ?_, ?_⟩, fun h => ⟨?_, ?_⟩⟩
  · simp [initlsp25h, openDev, h]
  · simp [readtempp, openDev, h]
  · simp [readpress, openDev, h]
  · simp [inithts221, openDev, dprint, h]
  · simp [readtemph, openDev, h]
  · simp [readhumid, openDev, h]
  · simp [initlsm9mag, openDev, h]
  · simp [readmag, openDev, h]
  · simp [initlsm9gyac, openDev, h]
  · simp [readaccel, openDev, h]
  · simp [readgyro, openDev, h]
  · simp [initled, openDev, h]
  · simp [writeled, openDev, h]

end ShatFS
